import Mathlib

/-!
Shallow embedding of the proposal-generation pipeline of the
AI_Tech_Consultant_Agent (ATK) repository: the mock shared-memory store
(`src/core/shared_memory.py`), the orchestrator workflow-status and
missing-information triage logic (`src/agents/orchestrator_agent.py`),
the solution-strategy and visualization agents, and the document-parsing
and planning tools.  Python dictionaries, lists and scalars are modelled
by `PyVal`, Python exceptions by `PyExc` together with `Except`, and the
module-level mutable `shared_memory` singleton by explicit state
passing.  All definitions are executable.
-/

namespace ATK

/-- Python exception kinds raised by the modelled code paths. -/
inductive PyExc where
  | typeError
  | attributeError
  | keyError
  | zeroDivisionError
  | indexError
  deriving DecidableEq, Repr

/-- JSON-like dynamic values standing for the Python objects the code
passes around (dicts keep insertion order, as Python dicts do). -/
inductive PyVal where
  | none
  | bool (b : Bool)
  | int (n : Int)
  | str (s : String)
  | list (xs : List PyVal)
  | dict (kvs : List (String × PyVal))
  deriving Repr

/-- Python `s.startswith(pat)` on character lists. -/
def charsStartsWith : List Char → List Char → Bool
  | _, [] => true
  | [], _ :: _ => false
  | c :: cs, d :: ds => c == d && charsStartsWith cs ds

/-- Python substring membership `pat in s` on character lists (the empty
pattern is contained in every string, as in Python). -/
def charsContains : List Char → List Char → Bool
  | [], pat => pat.isEmpty
  | s@(_ :: cs), pat => charsStartsWith s pat || charsContains cs pat

/-- Python `pat in s` for strings. -/
def strContains (s pat : String) : Bool :=
  charsContains s.data pat.data

/-- ASCII lowercase of one character (the strings in scope are ASCII,
where this agrees with Python). -/
def pyCharLower (c : Char) : Char :=
  if 65 ≤ c.toNat ∧ c.toNat ≤ 90 then Char.ofNat (c.toNat + 32) else c

/-- Python `s.lower()`. -/
def pyLower (s : String) : String :=
  ⟨s.data.map pyCharLower⟩

/-! ## C1 — missing-information triage
(`orchestrator_agent.identify_missing_information`, lines 237-278). -/

/-- Priority buckets of the triage. -/
inductive Priority where
  | high
  | medium
  | low
  deriving DecidableEq, Repr

/-- The `priority_keywords["high"]` list of the source. -/
def highKeywords : List String :=
  ["budget", "cost", "timeline", "deadline", "requirements", "scope"]

/-- The `priority_keywords["medium"]` list of the source. -/
def mediumKeywords : List String :=
  ["technical", "integration", "security", "compliance"]

/-- The `priority_keywords["low"]` list of the source (never consulted:
the final `else` branch assigns low unconditionally). -/
def lowKeywords : List String :=
  ["background", "stakeholders", "success_criteria"]

/-- Per-item classification step of `identify_missing_information`:
lowercase the item, test substring membership against the high keyword
set, then the medium set, else low. -/
def classifyItem (item : String) : Priority :=
  let itemLower := pyLower item
  if highKeywords.any (fun kw => strContains itemLower kw) then .high
  else if mediumKeywords.any (fun kw => strContains itemLower kw) then .medium
  else .low

/-- The categorization loop of `identify_missing_information`: each item
goes to exactly the bucket `classifyItem` picks, preserving order. -/
def categorizeMissing (missing_info : List String) :
    List String × List String × List String :=
  (missing_info.filter (fun i => classifyItem i == .high),
   missing_info.filter (fun i => classifyItem i == .medium),
   missing_info.filter (fun i => classifyItem i == .low))

/-- Recommendation text generation
(`orchestrator_agent._generate_clarification_recommendations`). -/
def generateClarificationRecommendations
    (high_priority medium_priority : List String) : List String :=
  (if high_priority.isEmpty then [] else
    "Please provide the following critical information:" ::
      high_priority.map (fun item => "- " ++ item)) ++
  (if medium_priority.isEmpty then [] else
    "The following information would be helpful to refine the solution:" ::
      medium_priority.map (fun item => "- " ++ item)) ++
  (if high_priority.isEmpty && medium_priority.isEmpty then
    ["All critical information has been provided. The proposal can proceed."]
   else [])

/-! ## C9 — requirements extraction
(`document_parsing_tools.extract_requirements_from_text`, lines 126-221). -/

/-- Whitespace characters removed by Python `str.strip()` (ASCII scope;
Python additionally strips rare Unicode spaces, which do not occur in
the modelled inputs). -/
def pySpace (c : Char) : Bool :=
  c == ' ' || c == '\t' || c == '\n' || c == '\r' || c == '\x0b' || c == '\x0c'

/-- Python `s.strip()` on character lists: drop leading and trailing
whitespace. -/
def stripChars (l : List Char) : List Char :=
  (l.dropWhile pySpace).rdropWhile pySpace

/-- Python `s.strip()`. -/
def pyStrip (s : String) : String :=
  ⟨stripChars s.data⟩

/-- The cleanup loop applied to every list-valued field of the
requirements dict:
`list(set([item.strip() for item in xs if item.strip()]))`.
Python's `set` returns the distinct elements in an unspecified order;
it is modelled by `List.dedup`, which has the same elements and no
duplicates. -/
def cleanupList (xs : List String) : List String :=
  ((xs.filter (fun item => pyStrip item != "")).map pyStrip).dedup

/-- Results of the `re.findall` calls inside
`extract_requirements_from_text`, one list of captured strings per
pattern, in the order the source lists the patterns.  The regular
expression engine is an external library; quantifying over all possible
match-list outcomes covers every input text. -/
structure RawMatches where
  functional : List (List String)
  budget : List (List String)
  timeline : List (List String)
  technical : List (List String)
  clientSections : List String
  scope : List (List String)

/-- The requirements dict shape built by
`extract_requirements_from_text`. -/
structure Requirements where
  functional_requirements : List String
  non_functional_requirements : List String
  technical_constraints : List String
  budget_constraints : List String
  timeline_constraints : List String
  client_background : String
  project_scope : String
  key_stakeholders : List String
  success_criteria : List String
  deriving Repr

/-- The project-scope loop: the first pattern with a non-empty match
list sets `project_scope` to the space-join of its matches and breaks;
otherwise the field keeps its initial value `""`. -/
def firstScope : List (List String) → String
  | [] => ""
  | m :: rest => if m.isEmpty then firstScope rest else String.intercalate " " m

/-- Shallow embedding of `extract_requirements_from_text`: each list
field accumulates the matches of its patterns in order, then the final
cleanup loop strips, filters and deduplicates every list-valued field
(the two free-text fields are joined strings). -/
def extract_requirements_from_text (m : RawMatches) : Requirements :=
  { functional_requirements := cleanupList m.functional.flatten
    non_functional_requirements := cleanupList []
    technical_constraints := cleanupList m.technical.flatten
    budget_constraints := cleanupList m.budget.flatten
    timeline_constraints := cleanupList m.timeline.flatten
    client_background :=
      if m.clientSections.isEmpty then "" else String.intercalate " " m.clientSections
    project_scope := firstScope m.scope
    key_stakeholders := cleanupList []
    success_criteria := cleanupList [] }

/-- A list field is clean when it has no duplicates (case-sensitive:
distinct strings stay distinct) and every element is a non-empty string
fixed by stripping. -/
def IsCleanList (l : List String) : Prop :=
  l.Nodup ∧ ∀ s ∈ l, pyStrip s = s ∧ s ≠ ""

/-! ## C10 — cost estimation
(`planning_tools.estimate_project_costs`, lines 83-155). -/

/-- A component dict passed to `estimate_project_costs`: `Option`
fields mirror Python `.get` with its per-call-site defaults.  Rational
numbers stand for the Python int/float values; every numeric literal in
the source (75, 40, 100, 50, 0.2, the divisor 4) and every input used
in the theorems is a dyadic rational, on which Python float arithmetic
is exact, so signs and zero tests agree with the model. -/
structure CostComponent where
  ctype : Option String
  monthly_cost : Option ℚ
  one_time_cost : Option ℚ
  license_cost : Option ℚ
  recurring : Option Bool

/-- One line of the returned cost breakdown. -/
structure CostLine where
  amount : ℚ
  percentage : ℚ
  description : String
  deriving Repr, DecidableEq

/-- The dict returned by `estimate_project_costs`. -/
structure CostBreakdown where
  labor_cost : CostLine
  infrastructure_cost : CostLine
  third_party_cost : CostLine
  contingency : CostLine
  total_cost : ℚ
  duration_weeks : Int
  team_size : Int
  deriving Repr, DecidableEq

/-- `labor_cost = team_size * hourly_rate * hours_per_week * duration_weeks`
with `hourly_rate = 75` and `hours_per_week = 40`. -/
def laborCost (team_size duration_weeks : Int) : ℚ :=
  (team_size : ℚ) * 75 * 40 * (duration_weeks : ℚ)

/-- Loop body of the infrastructure-cost accumulation. -/
def infraStep (duration_weeks : Int) (acc : ℚ) (c : CostComponent) : ℚ :=
  let component_type := c.ctype.getD "software"
  if component_type == "cloud_service" then
    acc + c.monthly_cost.getD 100 * ((duration_weeks : ℚ) / 4)
  else if component_type == "hardware" then
    acc + c.one_time_cost.getD 0
  else if component_type == "software_license" then
    if c.recurring.getD false then
      acc + c.license_cost.getD 0 * ((duration_weeks : ℚ) / 4)
    else
      acc + c.license_cost.getD 0
  else acc

/-- `infrastructure_cost` accumulated over the components. -/
def infrastructureCost (components : List CostComponent) (duration_weeks : Int) : ℚ :=
  components.foldl (infraStep duration_weeks) 0

/-- Loop body of the third-party-cost accumulation (here the source
uses `component.get('type')` with no default, so only an explicit
`'third_party_service'` value matches). -/
def thirdPartyStep (duration_weeks : Int) (acc : ℚ) (c : CostComponent) : ℚ :=
  if c.ctype == some "third_party_service" then
    acc + c.monthly_cost.getD 50 * ((duration_weeks : ℚ) / 4)
  else acc

/-- `third_party_cost` accumulated over the components. -/
def thirdPartyCost (components : List CostComponent) (duration_weeks : Int) : ℚ :=
  components.foldl (thirdPartyStep duration_weeks) 0

/-- `subtotal = labor_cost + infrastructure_cost + third_party_cost`. -/
def costSubtotal (components : List CostComponent) (team_size duration_weeks : Int) : ℚ :=
  laborCost team_size duration_weeks + infrastructureCost components duration_weeks
    + thirdPartyCost components duration_weeks

/-- `contingency = subtotal * 0.2`. -/
def costContingency (components : List CostComponent) (team_size duration_weeks : Int) : ℚ :=
  costSubtotal components team_size duration_weeks * (1 / 5)

/-- `total_cost = subtotal + contingency`. -/
def costTotal (components : List CostComponent) (team_size duration_weeks : Int) : ℚ :=
  costSubtotal components team_size duration_weeks
    + costContingency components team_size duration_weeks

/-- Shallow embedding of `estimate_project_costs`.  The four percentage
fields divide by `total_cost` with no zero guard; when `total_cost` is
zero Python raises `ZeroDivisionError` at the first percentage,
modelled by the error branch. -/
def estimate_project_costs (components : List CostComponent)
    (team_size duration_weeks : Int) : Except PyExc CostBreakdown :=
  if costTotal components team_size duration_weeks = 0 then
    .error .zeroDivisionError
  else
    let total := costTotal components team_size duration_weeks
    .ok {
      labor_cost := ⟨laborCost team_size duration_weeks,
        laborCost team_size duration_weeks / total * 100,
        "Team of " ++ toString team_size ++ " for " ++ toString duration_weeks ++ " weeks"⟩
      infrastructure_cost := ⟨infrastructureCost components duration_weeks,
        infrastructureCost components duration_weeks / total * 100,
        "Cloud services, hardware, and licenses"⟩
      third_party_cost := ⟨thirdPartyCost components duration_weeks,
        thirdPartyCost components duration_weeks / total * 100,
        "External APIs and services"⟩
      contingency := ⟨costContingency components team_size duration_weeks,
        costContingency components team_size duration_weeks / total * 100,
        "20% contingency buffer"⟩
      total_cost := total
      duration_weeks := duration_weeks
      team_size := team_size }

/-! ## Shared memory store (`core/shared_memory.py`) -/

mutual

/-- Compact JSON rendering of a payload, standing for
`json.dumps(value, indent=2)`.  The indented form differs only in
whitespace placed next to structural tokens; the substring queries the
store performs (the five type names, none containing whitespace, quotes
or structural characters) occur in the indented rendering iff they
occur here. -/
def dumps : PyVal → String
  | .none => "null"
  | .bool b => if b then "true" else "false"
  | .int n => toString n
  | .str s => "\"" ++ s ++ "\""
  | .list xs => "[" ++ dumpsList xs ++ "]"
  | .dict kvs => "\x7b" ++ dumpsKvs kvs ++ "\x7d"

/-- Renders list elements separated by commas. -/
def dumpsList : List PyVal → String
  | [] => ""
  | [x] => dumps x
  | x :: y :: xs => dumps x ++ ", " ++ dumpsList (y :: xs)

/-- Renders dict entries separated by commas. -/
def dumpsKvs : List (String × PyVal) → String
  | [] => ""
  | [(k, v)] => "\"" ++ k ++ "\": " ++ dumps v
  | (k, v) :: w :: kvs => "\"" ++ k ++ "\": " ++ dumps v ++ ", " ++ dumpsKvs (w :: kvs)

end

/-- One entry of the `MockMemory.memories` list.  The Python entry also
carries a `datetime.now()` timestamp, an external clock value no
modelled operation reads (recency is list order). -/
structure MemRecord where
  id : String
  content : String
  metadata : PyVal
  deriving Repr

/-- `MockMemory`: the in-process fallback store used when Mem0 is not
available. -/
structure MockMemory where
  memories : List MemRecord
  counter : Nat
  deriving Repr

/-- `MockMemory.add`: append an entry and bump the counter. -/
def MockMemory.add (m : MockMemory) (memory_id content : String) (metadata : PyVal) :
    MockMemory :=
  { memories := m.memories ++ [⟨memory_id, content, metadata⟩]
    counter := m.counter + 1 }

/-- `MockMemory.search`: case-insensitive substring filter on entry
content, in store order. -/
def MockMemory.search (m : MockMemory) (query : String) : List MemRecord :=
  m.memories.filter (fun mem => strContains (pyLower mem.content) (pyLower query))

/-- The freshly initialized store. -/
def emptyMemory : MockMemory := ⟨[], 0⟩

/-- Python call semantics for `MockMemory.search`: the method is
declared `def search(self, query)`, but every `SharedMemory` call site
invokes it as `self.memory.search(query, user_id="default_user")`, and
Python raises `TypeError` for a keyword argument the signature does not
accept.  `kwargs` lists the keyword names passed beyond the declared
parameters. -/
def MockMemory.searchCall (m : MockMemory) (query : String) (kwargs : List String) :
    Except PyExc (List MemRecord) :=
  if kwargs.isEmpty then .ok (m.search query) else .error .typeError

/-- Python call semantics for `MockMemory.add` (declared
`def add(self, memory_id, content, metadata=None)`), which the call
sites invoke with the extra keyword `user_id`. -/
def MockMemory.addCall (m : MockMemory) (memory_id content : String) (metadata : PyVal)
    (kwargs : List String) : Except PyExc MockMemory :=
  if kwargs.isEmpty then .ok (m.add memory_id content metadata) else .error .typeError

/-- `SharedMemory.store_tender_analysis` on the MockMemory backend,
faithful to the call sites (which pass `user_id="default_user"`): the
count query runs first (unguarded by any try/except), then the add. -/
def store_tender_analysis (m : MockMemory) (analysis : PyVal) :
    Except PyExc (MockMemory × String) := do
  let hits ← m.searchCall "tender_analysis" ["user_id"]
  let memory_id := "tender_analysis_" ++ toString hits.length
  let m' ← m.addCall memory_id ("Tender Analysis: " ++ dumps analysis)
    (.dict [("type", .str "tender_analysis"), ("data", analysis)]) ["user_id"]
  pure (m', memory_id)

/-- The three-field dict that `get_latest_memory` and
`get_all_memories` build from an entry. -/
structure MemoryView where
  id : String
  content : String
  metadata : PyVal
  deriving Repr

/-- `SharedMemory.get_latest_memory` on the MockMemory backend: the
body is wrapped in try/except returning None, so the TypeError raised
by the keyword-bearing search call is swallowed; otherwise the last
search hit (`results[-1]`) is returned. -/
def get_latest_memory (m : MockMemory) (memory_type : String) : Option MemoryView :=
  match m.searchCall memory_type ["user_id"] with
  | .error _ => Option.none
  | .ok results =>
    match results.getLast? with
    | Option.none => Option.none
    | some latest => some ⟨latest.id, latest.content, latest.metadata⟩

/-- `SharedMemory.get_all_memories` on the MockMemory backend (same
try/except, returning `[]` on an exception). -/
def get_all_memories (m : MockMemory) (memory_type : String) : List MemoryView :=
  match m.searchCall memory_type ["user_id"] with
  | .error _ => []
  | .ok results => results.map (fun r => ⟨r.id, r.content, r.metadata⟩)

/-! ### Keyword-repaired store variants

The `SharedMemory` call sites pass `user_id="default_user"`, which the
`MockMemory` method signatures reject with `TypeError` (that mismatch
is settled under the store claims).  The `R` variants below model the
same store logic with the keyword accepted and ignored — the signature
the Mem0 backend actually has — so the agent-layer logic can be
analyzed independently of the signature slip. -/

/-- `store_tender_analysis` with the `user_id` keyword accepted and
ignored. -/
def storeTenderAnalysisR (m : MockMemory) (analysis : PyVal) : MockMemory × String :=
  let memory_id := "tender_analysis_" ++ toString (m.search "tender_analysis").length
  (m.add memory_id ("Tender Analysis: " ++ dumps analysis)
    (.dict [("type", .str "tender_analysis"), ("data", analysis)]), memory_id)

/-- `store_solution_strategy` with the `user_id` keyword accepted and
ignored. -/
def storeSolutionStrategyR (m : MockMemory) (strategy : PyVal) : MockMemory × String :=
  let memory_id := "solution_strategy_" ++ toString (m.search "solution_strategy").length
  (m.add memory_id ("Solution Strategy: " ++ dumps strategy)
    (.dict [("type", .str "solution_strategy"), ("data", strategy)]), memory_id)

/-- `store_visualization` with the `user_id` keyword accepted and
ignored (its metadata carries the diagram fields instead of a `data`
payload). -/
def storeVisualizationR (m : MockMemory) (diagram_type mermaid_code description : String) :
    MockMemory × String :=
  let memory_id :=
    "visualization_" ++ diagram_type ++ "_" ++ toString (m.search "visualization").length
  (m.add memory_id
    ("Visualization (" ++ diagram_type ++ "): " ++ description
      ++ "\n\nMermaid Code:\n" ++ mermaid_code)
    (.dict [("type", .str "visualization"), ("diagram_type", .str diagram_type),
            ("mermaid_code", .str mermaid_code), ("description", .str description)]),
   memory_id)

/-- `get_latest_memory` with the `user_id` keyword accepted and
ignored. -/
def getLatestR (m : MockMemory) (memory_type : String) : Option MemoryView :=
  match (m.search memory_type).getLast? with
  | Option.none => Option.none
  | some latest => some ⟨latest.id, latest.content, latest.metadata⟩

/-- `get_all_memories` with the `user_id` keyword accepted and
ignored. -/
def getAllR (m : MockMemory) (memory_type : String) : List MemoryView :=
  (m.search memory_type).map (fun r => ⟨r.id, r.content, r.metadata⟩)

/-! ## C5 — workflow status
(`orchestrator_agent.check_workflow_status`, lines 188-234, and
`shared_memory.get_context_summary`, lines 232-261). -/

/-- `SharedMemory.get_context_summary` (keyword-repaired reads): one
summary line per available stage, or a fixed fallback line. -/
def get_context_summary (m : MockMemory) : String :=
  let parts :=
    (if (getLatestR m "tender_analysis").isSome then ["Tender Analysis: Available"] else []) ++
    (if (getLatestR m "solution_strategy").isSome then ["Solution Strategy: Available"] else []) ++
    (if (getAllR m "visualization").isEmpty then [] else
      ["Visualizations: " ++ toString (getAllR m "visualization").length ++ " diagrams"]) ++
    (if (getLatestR m "project_plan").isSome then ["Project Plan: Available"] else []) ++
    (if (getLatestR m "technical_proposal").isSome then ["Technical Proposal: Available"] else [])
  if parts.isEmpty then "No information stored yet." else String.intercalate "\n" parts

/-- The result dict of `check_workflow_status` (the Python
`progress_percentage` is a float; every reachable value is a multiple
of 20, exact in both float and ℚ). -/
structure WorkflowStatus where
  progress_percentage : ℚ
  completed_steps : List String
  missing_steps : List String
  context_summary : String
  next_recommended_step : String
  deriving Repr

/-- The `completed_steps` list of `check_workflow_status` as a
function of the five presence flags (Python truthiness of
`get_latest_memory(t)`: the returned dict is non-empty, so truthy iff
not None): each stage label is appended when its stage has a record,
in the fixed order of the source. -/
def completedOfFlags (b1 b2 b3 b4 b5 : Bool) : List String :=
  (if b1 then ["tender_analysis"] else []) ++ (if b2 then ["solution_strategy"] else []) ++
  (if b3 then ["visualizations"] else []) ++ (if b4 then ["project_plan"] else []) ++
  (if b5 then ["final_proposal"] else [])

/-- The `missing_steps` list of `check_workflow_status` as a function
of the five presence flags: each stage label is appended when its stage
has no record, in the same fixed order. -/
def missingOfFlags (b1 b2 b3 b4 b5 : Bool) : List String :=
  (if b1 then [] else ["tender_analysis"]) ++ (if b2 then [] else ["solution_strategy"]) ++
  (if b3 then [] else ["visualizations"]) ++ (if b4 then [] else ["project_plan"]) ++
  (if b5 then [] else ["final_proposal"])

/-- Core of `check_workflow_status` as a function of the five presence
flags and the context summary:
`progress_percentage = (len(completed_steps) / 5) * 100` and
`next_recommended_step = missing_steps[0] if missing_steps else "complete"`. -/
def statusOfFlags (b1 b2 b3 b4 b5 : Bool) (ctx : String) : WorkflowStatus :=
  { progress_percentage := (((completedOfFlags b1 b2 b3 b4 b5).length : ℚ) / 5) * 100
    completed_steps := completedOfFlags b1 b2 b3 b4 b5
    missing_steps := missingOfFlags b1 b2 b3 b4 b5
    context_summary := ctx
    next_recommended_step :=
      match missingOfFlags b1 b2 b3 b4 b5 with
      | [] => "complete"
      | s :: _ => s }

/-- `check_workflow_status` over the store state. -/
def check_workflow_status (m : MockMemory) : WorkflowStatus :=
  statusOfFlags (getLatestR m "tender_analysis").isSome
    (getLatestR m "solution_strategy").isSome
    (getLatestR m "visualization").isSome
    (getLatestR m "project_plan").isSome
    (getLatestR m "technical_proposal").isSome
    (get_context_summary m)

/-- The fixed five-stage list, in the canonical pipeline order and with
the labels `check_workflow_status` uses. -/
def pipelineSteps : List String :=
  ["tender_analysis", "solution_strategy", "visualizations", "project_plan", "final_proposal"]

/-! ## C8 — complete workflow composition
(`orchestrator_agent.run_complete_workflow`, lines 136-185). -/

/-- The result dict of `run_complete_workflow`. -/
structure WorkflowOutcome where
  status : String
  error : Option String
  workflow_results : List (String × PyVal)
  summary : Option String
  deriving Repr

/-- Shallow embedding of `run_complete_workflow`, parameterized by the
outcomes of its five step invocations (`start_proposal_generation`,
`design_solution_strategy`, `create_visualizations`,
`create_project_plan`, `generate_final_proposal`; each wraps an
external LLM-agent call, so it either returns a result dict or
raises).  The try block accumulates `workflow_results` entries in
order; the except block returns status `"failed"` with `str(e)` and
the partial map; the success exit returns status `"completed"` with
all five entries and the fixed summary line. -/
def run_complete_workflow (s1 s2 s3 s4 s5 : Except String PyVal) : WorkflowOutcome :=
  match s1 with
  | .error e => ⟨"failed", some e, [], Option.none⟩
  | .ok r1 =>
    match s2 with
    | .error e => ⟨"failed", some e, [("tender_analysis", r1)], Option.none⟩
    | .ok r2 =>
      match s3 with
      | .error e => ⟨"failed", some e,
          [("tender_analysis", r1), ("solution_strategy", r2)], Option.none⟩
      | .ok r3 =>
        match s4 with
        | .error e => ⟨"failed", some e,
            [("tender_analysis", r1), ("solution_strategy", r2),
             ("visualizations", r3)], Option.none⟩
        | .ok r4 =>
          match s5 with
          | .error e => ⟨"failed", some e,
              [("tender_analysis", r1), ("solution_strategy", r2),
               ("visualizations", r3), ("project_plan", r4)], Option.none⟩
          | .ok r5 => ⟨"completed", Option.none,
              [("tender_analysis", r1), ("solution_strategy", r2),
               ("visualizations", r3), ("project_plan", r4), ("final_proposal", r5)],
              some "All steps completed successfully"⟩

/-! ## C6 — visualization batch assembly
(`visualization_agent.create_all_diagrams`, lines 403-447). -/

/-- Outcome of one diagram-builder call inside the try/except of
`create_all_diagrams`: the call either raises (with message `str(e)`)
or returns its result dict. -/
inductive GenOutcome where
  | raised (msg : String)
  | returned (v : PyVal)
  deriving Repr

/-- The except branch records `{"error": str(e)}`; otherwise the
returned dict is recorded unchanged. -/
def tryEntry : GenOutcome → PyVal
  | .raised msg => .dict [("error", .str msg)]
  | .returned v => v

/-- Python `"error" in d` on the entry dicts (`in` on a dict checks
keys; the non-dict case cannot arise from the builders). -/
def hasErrorKey : PyVal → Bool
  | .dict kvs => kvs.any (fun p => p.1 == "error")
  | _ => false

/-- True when the builder call raised. -/
def GenOutcome.isRaised : GenOutcome → Bool
  | .raised _ => true
  | .returned _ => false

/-- True when the builder returned a dict without an `"error"` key — a
valid diagram payload entry. -/
def GenOutcome.isValidPayload : GenOutcome → Bool
  | .raised _ => false
  | .returned v => !hasErrorKey v

/-- The dict returned by `create_all_diagrams`. -/
structure BatchResult where
  total_diagrams : Nat
  successful_diagrams : Nat
  diagrams : List (String × PyVal)
  deriving Repr

/-- Assembly of the `create_all_diagrams` result from the six
try/except outcomes, keyed in source order:
`total_diagrams = len(diagrams)` and `successful_diagrams` counts the
entries without an `"error"` key. -/
def assembleBatch (outs : List (String × GenOutcome)) : BatchResult :=
  let ds := outs.map (fun p => (p.1, tryEntry p.2))
  { total_diagrams := ds.length
    successful_diagrams := (ds.filter (fun p => !hasErrorKey p.2)).length
    diagrams := ds }

/-! ## Python access primitives for the agent layer -/

/-- Python `d.get(key, default)`: on dicts a total lookup (dict keys in
scope are unique); on any other value Python raises AttributeError (no
`get` attribute). -/
def pyGet (v : PyVal) (key : String) (default : PyVal) : Except PyExc PyVal :=
  match v with
  | .dict kvs =>
    match kvs.find? (fun p => p.1 == key) with
    | some p => .ok p.2
    | Option.none => .ok default
  | _ => .error .attributeError

/-- Python `v[key]` subscription: a missing key raises KeyError; a
non-dict value raises TypeError (not subscriptable). -/
def pySubscript (v : PyVal) (key : String) : Except PyExc PyVal :=
  match v with
  | .dict kvs =>
    match kvs.find? (fun p => p.1 == key) with
    | some p => .ok p.2
    | Option.none => .error .keyError
  | _ => .error .typeError

/-- Python `len(v)` (lists, strings and dicts have a length; the other
values in scope raise TypeError). -/
def pyLen : PyVal → Except PyExc Nat
  | .list xs => .ok xs.length
  | .str s => .ok s.length
  | .dict kvs => .ok kvs.length
  | _ => .error .typeError

/-- Python slicing `v[:n]` (lists and strings; the other values raise
TypeError). -/
def pyTake (n : Nat) : PyVal → Except PyExc PyVal
  | .list xs => .ok (.list (xs.take n))
  | .str s => .ok (.str ⟨s.data.take n⟩)
  | _ => .error .typeError

/-- Python iteration `for x in v`: lists yield elements, strings yield
one-character strings, dicts yield keys; other values raise
TypeError. -/
def pyIter : PyVal → Except PyExc (List PyVal)
  | .list xs => .ok xs
  | .str s => .ok (s.data.map (fun c => .str ⟨[c]⟩))
  | .dict kvs => .ok (kvs.map (fun p => .str p.1))
  | .none => .error .typeError
  | .bool _ => .error .typeError
  | .int _ => .error .typeError

/-- Python `x.lower()`: strings only; other values raise
AttributeError. -/
def pyLowerVal : PyVal → Except PyExc PyVal
  | .str s => .ok (.str (pyLower s))
  | _ => .error .attributeError

/-- Python `str(v)` as used inside the f-strings in scope (container
values render as their JSON dump; no claim inspects that branch). -/
def pyStr : PyVal → String
  | .str s => s
  | .int n => toString n
  | .bool b => if b then "True" else "False"
  | .none => "None"
  | .list xs => dumps (.list xs)
  | .dict kvs => dumps (.dict kvs)

/-- Python truthiness of a value. -/
def pyTruthy : PyVal → Bool
  | .none => false
  | .bool b => b
  | .int n => n != 0
  | .str s => s != ""
  | .list xs => !xs.isEmpty
  | .dict kvs => !kvs.isEmpty

/-- Python `v == "s"` for the type-dispatch comparisons in scope. -/
def pyEqStr (v : PyVal) (s : String) : Bool :=
  match v with
  | .str t => t == s
  | _ => false

/-- Python `a + b` restricted to the shapes the modelled sums combine:
numbers add, anything else — in particular `int + dict`, the
cost-sum slip — raises TypeError. -/
def pyAdd : PyVal → PyVal → Except PyExc PyVal
  | .int a, .int b => .ok (.int (a + b))
  | .bool a, .int b => .ok (.int ((if a then 1 else 0) + b))
  | .int a, .bool b => .ok (.int (a + (if b then 1 else 0)))
  | _, _ => .error .typeError

/-- Python `sum(iterable)`: a left fold of `+` starting from the int
0. -/
def pySum (xs : List PyVal) : Except PyExc PyVal :=
  xs.foldlM pyAdd (.int 0)

/-- Functional update `d[key] = value` on a dict: replaces the value of
an existing key in place, else appends — Python dict assignment
semantics.  The modelled code applies it only to dict literals (a
non-dict is returned unchanged; Python would raise TypeError, a case
no modelled path reaches). -/
def dictSet (v : PyVal) (key : String) (value : PyVal) : PyVal :=
  match v with
  | .dict kvs =>
    if kvs.any (fun p => p.1 == key) then
      .dict (kvs.map (fun p => if p.1 == key then (p.1, value) else p))
    else .dict (kvs ++ [(key, value)])
  | w => w

/-! ## C4 — solution strategy agent
(`solution_strategy_agent.design_solution_strategy`, lines 15-54, and
its nine helpers, lines 56-318). -/

/-- `_create_solution_overview`: the summary interpolates
`len(functional_reqs)` and `key_features` slices the first five. -/
def createSolutionOverview (requirements : PyVal) : Except PyExc PyVal := do
  let functional_reqs ← pyGet requirements "functional_requirements" (.list [])
  let _project_scope ← pyGet requirements "project_scope" (.str "")
  let n ← pyLen functional_reqs
  let key_features ← pyTake 5 functional_reqs
  pure (.dict [
    ("summary", .str ("Comprehensive solution addressing " ++ toString n
      ++ " functional requirements")),
    ("key_features", key_features),
    ("business_value",
      .str "Improved efficiency, cost reduction, and enhanced user experience"),
    ("differentiators", .list [.str "Modern, scalable architecture",
      .str "Integration with existing systems",
      .str "Comprehensive security measures",
      .str "User-friendly interface design"])])

/-- `_design_technical_architecture`: reads `technical_constraints`
(unused) and returns a fixed architecture dict. -/
def designTechnicalArchitecture (requirements : PyVal) : Except PyExc PyVal := do
  let _tech_constraints ← pyGet requirements "technical_constraints" (.list [])
  pure (.dict [
    ("layers", .dict [
      ("presentation_layer", .dict [
        ("components", .list [.str "Web Interface", .str "Mobile App",
          .str "Admin Dashboard"]),
        ("technologies", .list [.str "React", .str "React Native", .str "Material-UI"])]),
      ("business_logic_layer", .dict [
        ("components", .list [.str "API Gateway", .str "Microservices",
          .str "Authentication Service"]),
        ("technologies", .list [.str "Node.js", .str "Python", .str "JWT"])]),
      ("data_layer", .dict [
        ("components", .list [.str "Primary Database", .str "Cache", .str "File Storage"]),
        ("technologies", .list [.str "PostgreSQL", .str "Redis", .str "AWS S3"])])]),
    ("integration_points", .list [
      .str "REST APIs for external integrations",
      .str "Webhook support for real-time updates",
      .str "Database connectors for legacy systems"]),
    ("security_measures", .list [
      .str "OAuth 2.0 authentication",
      .str "Data encryption at rest and in transit",
      .str "Regular security audits",
      .str "Compliance with industry standards"])])

/-- The base technology stack literal of `_select_technology_stack`. -/
def baseTechnologyStack : PyVal :=
  .dict [
    ("frontend", .dict [("framework", .str "React.js"), ("ui_library", .str "Material-UI"),
      ("state_management", .str "Redux Toolkit"), ("build_tool", .str "Vite")]),
    ("backend", .dict [("runtime", .str "Node.js"), ("framework", .str "Express.js"),
      ("language", .str "TypeScript"), ("api_design", .str "REST + GraphQL")]),
    ("database", .dict [("primary", .str "PostgreSQL"), ("cache", .str "Redis"),
      ("orm", .str "Prisma")]),
    ("infrastructure", .dict [("cloud_provider", .str "AWS"),
      ("containerization", .str "Docker"), ("orchestration", .str "Kubernetes"),
      ("ci_cd", .str "GitHub Actions")]),
    ("monitoring", .dict [("logging", .str "ELK Stack"),
      ("metrics", .str "Prometheus + Grafana"), ("tracing", .str "Jaeger")])]

/-- One iteration of the constraint-adjustment loop of
`_select_technology_stack`. -/
def adjustStackForConstraint (stack constraint : PyVal) : Except PyExc PyVal := do
  let cl ← pyLowerVal constraint
  let clStr := pyStr cl
  if strContains clStr "python" then do
    let backend ← pySubscript stack "backend"
    pure (dictSet stack "backend"
      (dictSet (dictSet backend "runtime" (.str "Python")) "framework" (.str "FastAPI")))
  else if strContains clStr "java" then do
    let backend ← pySubscript stack "backend"
    pure (dictSet stack "backend"
      (dictSet (dictSet backend "runtime" (.str "Java")) "framework" (.str "Spring Boot")))
  else if strContains clStr "azure" then do
    let infra ← pySubscript stack "infrastructure"
    pure (dictSet stack "infrastructure" (dictSet infra "cloud_provider" (.str "Azure")))
  else if strContains clStr "gcp" then do
    let infra ← pySubscript stack "infrastructure"
    pure (dictSet stack "infrastructure"
      (dictSet infra "cloud_provider" (.str "Google Cloud Platform")))
  else
    pure stack

/-- `_select_technology_stack`: the base stack adjusted by the
technical constraints. -/
def selectTechnologyStack (requirements : PyVal) : Except PyExc PyVal := do
  let tech_constraints ← pyGet requirements "technical_constraints" (.list [])
  let items ← pyIter tech_constraints
  items.foldlM adjustStackForConstraint baseTechnologyStack

/-- `_define_implementation_approach` (a fixed dict; the argument is
unused). -/
def defineImplementationApproach (_requirements : PyVal) : PyVal :=
  .dict [
    ("methodology", .str "Agile with Scrum"),
    ("phases", .list [
      .dict [("name", .str "Discovery & Planning"), ("duration", .str "2-3 weeks"),
        ("deliverables", .list [.str "Detailed requirements", .str "Technical design",
          .str "Project plan"])],
      .dict [("name", .str "Development Phase 1"), ("duration", .str "4-6 weeks"),
        ("deliverables", .list [.str "Core functionality", .str "Basic UI",
          .str "API endpoints"])],
      .dict [("name", .str "Development Phase 2"), ("duration", .str "4-6 weeks"),
        ("deliverables", .list [.str "Advanced features", .str "Integration",
          .str "Testing"])],
      .dict [("name", .str "Testing & Deployment"), ("duration", .str "2-3 weeks"),
        ("deliverables", .list [.str "QA testing", .str "Production deployment",
          .str "Documentation"])]]),
    ("team_structure", .dict [("project_manager", .int 1), ("tech_lead", .int 1),
      ("frontend_developers", .int 2), ("backend_developers", .int 2),
      ("devops_engineer", .int 1), ("qa_engineer", .int 1)])]

/-- `_identify_risks_and_mitigation` (a fixed dict). -/
def identifyRisksAndMitigation (_requirements : PyVal) : PyVal :=
  .dict [("risks", .list [
    .dict [("risk", .str "Scope creep during development"), ("impact", .str "Medium"),
      ("probability", .str "Medium"),
      ("mitigation", .str "Regular scope reviews, change control process")],
    .dict [("risk", .str "Integration challenges with existing systems"),
      ("impact", .str "High"), ("probability", .str "Medium"),
      ("mitigation", .str "Early integration testing, proof of concept")],
    .dict [("risk", .str "Performance issues under load"), ("impact", .str "High"),
      ("probability", .str "Low"),
      ("mitigation", .str "Load testing, performance monitoring, scaling strategy")],
    .dict [("risk", .str "Security vulnerabilities"), ("impact", .str "High"),
      ("probability", .str "Low"),
      ("mitigation",
        .str "Security reviews, penetration testing, secure coding practices")]])]

/-- `_estimate_solution_costs`: after reading `budget_constraints`, the
costs dict literal is built and
`total_cost = sum(cost.get("amount", cost) for cost in costs.values())`
runs — only the contingency entry has an `"amount"` key, so the first
generator item is the development dict itself and the sum `0 + {...}`
raises TypeError. -/
def estimateSolutionCosts (requirements : PyVal) : Except PyExc PyVal := do
  let _budget_constraints ← pyGet requirements "budget_constraints" (.list [])
  let development : PyVal := .dict [("team_costs", .int 120000),
    ("description", .str "Development team costs")]
  let infrastructure : PyVal := .dict [("cloud_services", .int 5000),
    ("description", .str "Cloud infrastructure and services")]
  let third_party : PyVal := .dict [("licenses", .int 3000),
    ("description", .str "Third-party software and services")]
  let contingency : PyVal := .dict [("amount", .int 25600),
    ("description", .str "Contingency buffer")]
  let items ← [development, infrastructure, third_party, contingency].mapM
    (fun cost => pyGet cost "amount" cost)
  let total ← pySum items
  pure (dictSet (.dict [("development", development), ("infrastructure", infrastructure),
    ("third_party", third_party), ("contingency", contingency)]) "total" total)

/-- `_estimate_implementation_timeline`: reads `timeline_constraints`
(unused) and returns a fixed dict. -/
def estimateImplementationTimeline (requirements : PyVal) : Except PyExc PyVal := do
  let _timeline_constraints ← pyGet requirements "timeline_constraints" (.list [])
  pure (.dict [
    ("total_duration", .str "14-18 weeks"),
    ("phases", .list [
      .dict [("name", .str "Discovery & Planning"), ("duration", .str "2-3 weeks")],
      .dict [("name", .str "Development Phase 1"), ("duration", .str "4-6 weeks")],
      .dict [("name", .str "Development Phase 2"), ("duration", .str "4-6 weeks")],
      .dict [("name", .str "Testing & Deployment"), ("duration", .str "2-3 weeks")]]),
    ("milestones", .list [
      .dict [("week", .int 3), ("milestone", .str "Requirements finalized and approved")],
      .dict [("week", .int 9), ("milestone", .str "Core functionality completed")],
      .dict [("week", .int 15), ("milestone", .str "All features completed and tested")],
      .dict [("week", .int 18), ("milestone", .str "Production deployment")]])])

/-- `_define_success_metrics` (a fixed dict). -/
def defineSuccessMetrics (_requirements : PyVal) : PyVal :=
  .dict [
    ("technical_metrics", .list [.str "System uptime: 99.9%",
      .str "Response time: < 2 seconds", .str "Page load time: < 3 seconds",
      .str "API response time: < 500ms"]),
    ("business_metrics", .list [.str "User adoption rate: > 80%",
      .str "Task completion rate: > 90%", .str "User satisfaction score: > 4.5/5",
      .str "Reduction in manual processes: > 50%"]),
    ("project_metrics", .list [.str "On-time delivery", .str "Within budget",
      .str "All requirements met", .str "Zero critical bugs in production"])]

/-- `_document_assumptions` (a fixed list). -/
def documentAssumptions (_requirements : PyVal) : PyVal :=
  .list [.str "Client has existing IT infrastructure and team",
    .str "Client will provide necessary access to existing systems",
    .str "Client will participate in regular review meetings",
    .str "Client will provide timely feedback and approvals",
    .str "No major regulatory changes during implementation",
    .str "Team availability and skills as specified",
    .str "Third-party services and APIs remain available"]

/-- The strategy dict literal of `design_solution_strategy`: Python
evaluates the nine values in order, so the TypeError inside
`cost_estimates` aborts the construction before `timeline_estimate`
(transcribed for completeness but unreachable). -/
def buildStrategy (requirements : PyVal) : Except PyExc PyVal := do
  let solution_overview ← createSolutionOverview requirements
  let technical_architecture ← designTechnicalArchitecture requirements
  let technology_stack ← selectTechnologyStack requirements
  let implementation_approach := defineImplementationApproach requirements
  let risk_mitigation := identifyRisksAndMitigation requirements
  let cost_estimates ← estimateSolutionCosts requirements
  let timeline_estimate ← estimateImplementationTimeline requirements
  let success_metrics := defineSuccessMetrics requirements
  let assumptions := documentAssumptions requirements
  pure (.dict [("solution_overview", solution_overview),
    ("technical_architecture", technical_architecture),
    ("technology_stack", technology_stack),
    ("implementation_approach", implementation_approach),
    ("risk_mitigation", risk_mitigation),
    ("cost_estimates", cost_estimates),
    ("timeline_estimate", timeline_estimate),
    ("success_metrics", success_metrics),
    ("assumptions", assumptions)])

/-- The found-tender branch of `design_solution_strategy`:
`analysis_data = tender_analysis.get("metadata", {}).get("data", {})`,
`requirements = analysis_data.get("requirements", {})`, then the
strategy is built, stored, and returned with the new memory id
appended. -/
def designWithTender (m : MockMemory) (tender_analysis : MemoryView) :
    Except PyExc (PyVal × MockMemory) := do
  let md ← pyGet (.dict [("id", .str tender_analysis.id),
    ("content", .str tender_analysis.content),
    ("metadata", tender_analysis.metadata)]) "metadata" (.dict [])
  let analysis_data ← pyGet md "data" (.dict [])
  let requirements ← pyGet analysis_data "requirements" (.dict [])
  let strategy ← buildStrategy requirements
  let (m', memory_id) := storeSolutionStrategyR m strategy
  pure (dictSet strategy "memory_id" (.str memory_id), m')

/-- `design_solution_strategy` (keyword-repaired store): both branches
of the source's `if tender_analysis_id:` make the same
`get_latest_memory("tender_analysis")` call; an absent record yields
the returned error dict. -/
def design_solution_strategy (m : MockMemory) : Except PyExc (PyVal × MockMemory) :=
  match getLatestR m "tender_analysis" with
  | Option.none =>
    .ok (.dict [("error", .str "No tender analysis found in memory")], m)
  | some tender_analysis => designWithTender m tender_analysis

/-- A store holding one retrievable, well-shaped tender-analysis record
(its content mentions the type name, as a Mem0-backed search result
would, so `get_latest_memory("tender_analysis")` finds it). -/
def seededTenderMemory : MockMemory :=
  ⟨[⟨"tender_analysis_0",
     "Tender Analysis: tender_analysis of the warehouse RFP",
     .dict [("type", .str "tender_analysis"),
       ("data", .dict [("requirements", .dict [
         ("functional_requirements", .list [.str "support barcode scanning"]),
         ("project_scope", .str "warehouse management system"),
         ("technical_constraints", .list [.str "Python backend required"]),
         ("budget_constraints", .list [.str "$100,000"]),
         ("timeline_constraints", .list [.str "4 months"])])])]⟩], 1⟩

/-! ## Diagram templating (`tools/diagram_tools.py`) -/

/-- One node line of `_generate_system_architecture`, shaped by the
component type (literal braces are the Mermaid delimiters). -/
def systemArchNodeLine (i : Nat) (component : PyVal) : Except PyExc String := do
  let name ← pyGet component "name" (.str ("Component_" ++ toString i))
  let component_type ← pyGet component "type" (.str "component")
  let description ← pyGet component "description" (.str "")
  let n := pyStr name
  let d := pyStr description
  if pyEqStr component_type "frontend" then
    pure ("    " ++ n ++ "[" ++ n ++ "<br/>" ++ d ++ "]")
  else if pyEqStr component_type "backend" then
    pure ("    " ++ n ++ "(" ++ n ++ "<br/>" ++ d ++ ")")
  else if pyEqStr component_type "database" then
    pure ("    " ++ n ++ "[(" ++ n ++ "<br/>" ++ d ++ ")]")
  else if pyEqStr component_type "external" then
    pure ("    " ++ n ++ "\x7b" ++ n ++ "<br/>" ++ d ++ "\x7d")
  else
    pure ("    " ++ n ++ "[" ++ n ++ "<br/>" ++ d ++ "]")

/-- One connection line between consecutive components
(`components[i]['name'] --> components[i+1]['name']`, with the arrow of
the calling template). -/
def archConnectionLine (ci cj : PyVal) (arrow : String) : Except PyExc String := do
  let a ← pySubscript ci "name"
  let b ← pySubscript cj "name"
  pure ("    " ++ pyStr a ++ arrow ++ pyStr b)

/-- `_generate_system_architecture`. -/
def generateSystemArchitecture (components : List PyVal) : Except PyExc String := do
  let nodeLines ← components.enum.mapM (fun p => systemArchNodeLine p.1 p.2)
  let connLines ← (components.zip components.tail).mapM
    (fun p => archConnectionLine p.1 p.2 " --> ")
  pure (String.intercalate "\n" ("graph TD" :: (nodeLines ++ connLines)))

/-- One node line of `_generate_data_flow_diagram`. -/
def dataFlowNodeLine (i : Nat) (component : PyVal) : Except PyExc String := do
  let name ← pyGet component "name" (.str ("Component_" ++ toString i))
  let component_type ← pyGet component "type" (.str "process")
  let description ← pyGet component "description" (.str "")
  let n := pyStr name
  let d := pyStr description
  if pyEqStr component_type "data_source" then
    pure ("    " ++ n ++ "([" ++ n ++ "<br/>" ++ d ++ "])")
  else if pyEqStr component_type "process" then
    pure ("    " ++ n ++ "(" ++ n ++ "<br/>" ++ d ++ ")")
  else if pyEqStr component_type "data_store" then
    pure ("    " ++ n ++ "[(" ++ n ++ "<br/>" ++ d ++ ")]")
  else if pyEqStr component_type "destination" then
    pure ("    " ++ n ++ "\x7b" ++ n ++ "<br/>" ++ d ++ "\x7d")
  else
    pure ("    " ++ n ++ "(" ++ n ++ "<br/>" ++ d ++ ")")

/-- `_generate_data_flow_diagram`. -/
def generateDataFlowDiagram (components : List PyVal) : Except PyExc String := do
  let nodeLines ← components.enum.mapM (fun p => dataFlowNodeLine p.1 p.2)
  let connLines ← (components.zip components.tail).mapM
    (fun p => archConnectionLine p.1 p.2 " -->|data| ")
  pure (String.intercalate "\n" ("graph LR" :: (nodeLines ++ connLines)))

/-- The fixed layer keys of `_generate_infrastructure_diagram`, in
insertion order. -/
def infraLayerNames : List String :=
  ["load_balancer", "web_server", "application_server", "database", "storage", "external"]

/-- The layer a component is grouped into (unknown or non-string types
fall back to `application_server`, as the `else` branch does). -/
def resolvedLayer (component : PyVal) : Except PyExc String := do
  let t ← pyGet component "type" (.str "application_server")
  match t with
  | .str s => if infraLayerNames.contains s then pure s else pure "application_server"
  | _ => pure "application_server"

/-- A node line inside a subgraph of the infrastructure diagram. -/
def infraNodeLine (component : PyVal) : Except PyExc String := do
  let name ← pyGet component "name" (.str "Component")
  let description ← pyGet component "description" (.str "")
  pure ("        " ++ pyStr name ++ "[" ++ pyStr name ++ "<br/>" ++ pyStr description ++ "]")

/-- Python `layer_name.replace('_', ' ').title()` for the lowercase
layer names in scope: capitalize the first letter of each word. -/
def titleCase (s : String) : String :=
  String.intercalate " " ((s.splitOn "_").map (fun w =>
    match w.data with
    | [] => w
    | c :: cs =>
      ⟨(if 97 ≤ c.toNat ∧ c.toNat ≤ 122 then Char.ofNat (c.toNat - 32) else c) :: cs⟩))

/-- The components of a grouped layer. -/
def groupFor (grouped : List (String × List PyVal)) (layer : String) : List PyVal :=
  ((grouped.find? (fun g => g.1 == layer)).map (fun g => g.2)).getD []

/-- `_generate_infrastructure_diagram`: group by layer, emit one
subgraph per non-empty layer, then connect the first components of
consecutive non-empty layers of the fixed order. -/
def generateInfrastructureDiagram (components : List PyVal) : Except PyExc String := do
  let tagged ← components.mapM (fun c => do
    let L ← resolvedLayer c
    pure (L, c))
  let grouped := infraLayerNames.map (fun L =>
    (L, (tagged.filter (fun p => p.1 == L)).map (fun p => p.2)))
  let sections ← grouped.mapM (fun p =>
    if p.2.isEmpty then pure ([] : List String)
    else do
      let nodes ← p.2.mapM infraNodeLine
      pure (("    subgraph " ++ titleCase p.1) :: nodes ++ ["    end"]))
  let layer_order := ["load_balancer", "web_server", "application_server",
    "database", "storage"]
  let connLines ← (layer_order.zip layer_order.tail).mapM (fun pr =>
    match groupFor grouped pr.1, groupFor grouped pr.2 with
    | c :: _, d :: _ => do
      let a ← pySubscript c "name"
      let b ← pySubscript d "name"
      pure ["    " ++ pyStr a ++ " --> " ++ pyStr b]
    | _, _ => pure [])
  pure (String.intercalate "\n" ("graph TD" :: (sections.flatten ++ connLines.flatten)))

/-- `generate_architecture_diagram`: dispatch on the diagram type, with
the system template as default. -/
def generate_architecture_diagram (components : List PyVal) (diagram_type : String) :
    Except PyExc String :=
  if diagram_type == "system" then generateSystemArchitecture components
  else if diagram_type == "infrastructure" then generateInfrastructureDiagram components
  else if diagram_type == "data_flow" then generateDataFlowDiagram components
  else generateSystemArchitecture components

/-- One node line of `generate_workflow_diagram`. -/
def workflowNodeLine (i : Nat) (step : PyVal) : Except PyExc String := do
  let name ← pyGet step "name" (.str ("Step_" ++ toString i))
  let step_type ← pyGet step "type" (.str "process")
  let description ← pyGet step "description" (.str "")
  let n := pyStr name
  let d := pyStr description
  if pyEqStr step_type "start" then
    pure ("    " ++ n ++ "([" ++ n ++ "<br/>" ++ d ++ "])")
  else if pyEqStr step_type "decision" then
    pure ("    " ++ n ++ "\x7b" ++ n ++ "<br/>" ++ d ++ "\x7d")
  else if pyEqStr step_type "end" then
    pure ("    " ++ n ++ "([" ++ n ++ "<br/>" ++ d ++ "])")
  else
    pure ("    " ++ n ++ "(" ++ n ++ "<br/>" ++ d ++ ")")

/-- One connection line of `generate_workflow_diagram` (decisions get a
`|Yes|` label; `current_step.get('type')` has no default). -/
def workflowConnLine (cur next : PyVal) : Except PyExc String := do
  let t ← pyGet cur "type" .none
  let a ← pySubscript cur "name"
  let b ← pySubscript next "name"
  if pyEqStr t "decision" then pure ("    " ++ pyStr a ++ " -->|Yes| " ++ pyStr b)
  else pure ("    " ++ pyStr a ++ " --> " ++ pyStr b)

/-- `generate_workflow_diagram`. -/
def generateWorkflowDiagram (workflow_steps : List PyVal) : Except PyExc String := do
  let nodeLines ← workflow_steps.enum.mapM (fun p => workflowNodeLine p.1 p.2)
  let connLines ← (workflow_steps.zip workflow_steps.tail).mapM
    (fun p => workflowConnLine p.1 p.2)
  pure (String.intercalate "\n" ("graph TD" :: (nodeLines ++ connLines)))

/-- One interaction line of `generate_sequence_diagram`
(`interaction.get('from', participants[0])` indexes the participant
list, an IndexError when it is too short — never the case in the only
call site). -/
def sequenceInteractionLine (participants : List String) (interaction : PyVal) :
    Except PyExc String :=
  match participants with
  | [] => .error .indexError
  | p0 :: rest =>
    match rest with
    | [] => .error .indexError
    | p1 :: _ => do
      let fromP ← pyGet interaction "from" (.str p0)
      let toP ← pyGet interaction "to" (.str p1)
      let message ← pyGet interaction "message" (.str "")
      let itype ← pyGet interaction "type" (.str "->")
      let f := pyStr fromP
      let t := pyStr toP
      let msg := pyStr message
      if pyEqStr itype "->" then pure ("    " ++ f ++ "->>" ++ t ++ ": " ++ msg)
      else if pyEqStr itype "-->" then pure ("    " ++ f ++ "-->" ++ t ++ ": " ++ msg)
      else if pyEqStr itype "->>+" then pure ("    " ++ f ++ "->>+" ++ t ++ ": " ++ msg)
      else if pyEqStr itype "->>-" then pure ("    " ++ f ++ "->>-" ++ t ++ ": " ++ msg)
      else pure ("    " ++ f ++ "->>" ++ t ++ ": " ++ msg)

/-- `generate_sequence_diagram`. -/
def generateSequenceDiagram (participants : List String) (interactions : List PyVal) :
    Except PyExc String := do
  let interactionLines ← interactions.mapM (sequenceInteractionLine participants)
  pure (String.intercalate "\n" ("sequenceDiagram" ::
    (participants.map (fun p => "    participant " ++ p) ++ interactionLines)))

/-- One attribute line of an ER entity block (the constraint is added
when truthy). -/
def erAttrLine (attr : PyVal) : Except PyExc String := do
  let attr_name ← pyGet attr "name" (.str "attribute")
  let attr_type ← pyGet attr "type" (.str "string")
  let attr_constraint ← pyGet attr "constraint" (.str "")
  if pyTruthy attr_constraint then
    pure ("\n        " ++ pyStr attr_type ++ " " ++ pyStr attr_name ++ " "
      ++ pyStr attr_constraint)
  else
    pure ("\n        " ++ pyStr attr_type ++ " " ++ pyStr attr_name)

/-- One entity block of `generate_er_diagram`. -/
def erEntityBlock (entity : PyVal) : Except PyExc String := do
  let name ← pyGet entity "name" (.str "Entity")
  let attributes ← pyGet entity "attributes" (.list [])
  let attrs ← pyIter attributes
  let attrLines ← attrs.mapM erAttrLine
  pure ("    " ++ pyStr name ++ " \x7b" ++ String.join attrLines ++ "\n    \x7d")

/-- One relationship line of `generate_er_diagram`. -/
def erRelationLine (ei ej : PyVal) : Except PyExc String := do
  let a ← pySubscript ei "name"
  let b ← pySubscript ej "name"
  pure ("    " ++ pyStr a ++ " ||--o\x7b " ++ pyStr b ++ " : relates")

/-- `generate_er_diagram`. -/
def generateErDiagram (entities : List PyVal) : Except PyExc String := do
  let blocks ← entities.mapM erEntityBlock
  let rels ← (entities.zip entities.tail).mapM (fun p => erRelationLine p.1 p.2)
  pure (String.intercalate "\n" ("erDiagram" :: (blocks ++ rels)))

/-! ## C7 — visualization agent builders
(`visualization_agent.py`, lines 19-447). -/

/-- `create_system_architecture_diagram`: needs a solution strategy
(returns an error dict when absent), assembles the eight components
from the technology stack, renders, stores, and returns the payload. -/
def create_system_architecture_diagram (m : MockMemory) :
    Except PyExc (PyVal × MockMemory) := do
  match getLatestR m "solution_strategy" with
  | Option.none =>
    pure (.dict [("error", .str "No solution strategy found in memory")], m)
  | some ss => do
    let md ← pyGet (.dict [("id", .str ss.id), ("content", .str ss.content),
      ("metadata", ss.metadata)]) "metadata" (.dict [])
    let strategy_data ← pyGet md "data" (.dict [])
    let _architecture ← pyGet strategy_data "technical_architecture" (.dict [])
    let tech_stack ← pyGet strategy_data "technology_stack" (.dict [])
    let frontend_tech ← pyGet tech_stack "frontend" (.dict [])
    let ffw ← pyGet frontend_tech "framework" (.str "React")
    let fui ← pyGet frontend_tech "ui_library" (.str "Material-UI")
    let backend_tech ← pyGet tech_stack "backend" (.dict [])
    let bfw ← pyGet backend_tech "framework" (.str "Express")
    let brt ← pyGet backend_tech "runtime" (.str "Node.js")
    let db_tech ← pyGet tech_stack "database" (.dict [])
    let dbp ← pyGet db_tech "primary" (.str "PostgreSQL")
    let dbc ← pyGet db_tech "cache" (.str "Redis")
    let infra_tech ← pyGet tech_stack "infrastructure" (.dict [])
    let icp ← pyGet infra_tech "cloud_provider" (.str "AWS")
    let components : List PyVal := [
      .dict [("name", .str "Web Interface"), ("type", .str "frontend"),
        ("description", .str (pyStr ffw ++ " + " ++ pyStr fui))],
      .dict [("name", .str "Mobile App"), ("type", .str "frontend"),
        ("description", .str "Cross-platform mobile application")],
      .dict [("name", .str "API Gateway"), ("type", .str "backend"),
        ("description", .str (pyStr bfw ++ " API Gateway"))],
      .dict [("name", .str "Authentication Service"), ("type", .str "backend"),
        ("description", .str "JWT-based authentication")],
      .dict [("name", .str "Business Logic"), ("type", .str "backend"),
        ("description", .str (pyStr brt ++ " microservices"))],
      .dict [("name", .str "Primary Database"), ("type", .str "database"),
        ("description", .str (pyStr dbp ++ " database"))],
      .dict [("name", .str "Cache Layer"), ("type", .str "database"),
        ("description", .str (pyStr dbc ++ " caching"))],
      .dict [("name", .str "Cloud Infrastructure"), ("type", .str "external"),
        ("description", .str (pyStr icp ++ " cloud services"))]]
    let mermaid_code ← generate_architecture_diagram components "system"
    let (m', memory_id) := storeVisualizationR m "system_architecture" mermaid_code
      "System architecture diagram showing all components and their relationships"
    pure (.dict [("diagram_type", .str "system_architecture"),
      ("mermaid_code", .str mermaid_code),
      ("description",
        .str "System architecture diagram showing all components and their relationships"),
      ("memory_id", .str memory_id)], m')

/-- `create_infrastructure_diagram`: needs a solution strategy, renders
the fixed five-component deployment with the containerization value
interpolated. -/
def create_infrastructure_diagram (m : MockMemory) :
    Except PyExc (PyVal × MockMemory) := do
  match getLatestR m "solution_strategy" with
  | Option.none =>
    pure (.dict [("error", .str "No solution strategy found in memory")], m)
  | some ss => do
    let md ← pyGet (.dict [("id", .str ss.id), ("content", .str ss.content),
      ("metadata", ss.metadata)]) "metadata" (.dict [])
    let strategy_data ← pyGet md "data" (.dict [])
    let tech_stack ← pyGet strategy_data "technology_stack" (.dict [])
    let infra_tech ← pyGet tech_stack "infrastructure" (.dict [])
    let cont ← pyGet infra_tech "containerization" (.str "Docker")
    let components : List PyVal := [
      .dict [("name", .str "Load Balancer"), ("type", .str "load_balancer"),
        ("description", .str "Application Load Balancer")],
      .dict [("name", .str "Web Server"), ("type", .str "web_server"),
        ("description", .str "Nginx reverse proxy")],
      .dict [("name", .str "Application Server"), ("type", .str "application_server"),
        ("description", .str (pyStr cont ++ " containers"))],
      .dict [("name", .str "Database Server"), ("type", .str "database"),
        ("description", .str "Managed database service")],
      .dict [("name", .str "File Storage"), ("type", .str "storage"),
        ("description", .str "Object storage service")]]
    let mermaid_code ← generate_architecture_diagram components "infrastructure"
    let (m', memory_id) := storeVisualizationR m "infrastructure" mermaid_code
      "Infrastructure diagram showing deployment architecture"
    pure (.dict [("diagram_type", .str "infrastructure"),
      ("mermaid_code", .str mermaid_code),
      ("description", .str "Infrastructure diagram showing deployment architecture"),
      ("memory_id", .str memory_id)], m')

/-- `create_data_flow_diagram`: performs no memory check — it renders
and stores its fixed six components unconditionally. -/
def create_data_flow_diagram (m : MockMemory) : Except PyExc (PyVal × MockMemory) := do
  let components : List PyVal := [
    .dict [("name", .str "User Input"), ("type", .str "data_source"),
      ("description", .str "User interactions and form submissions")],
    .dict [("name", .str "API Gateway"), ("type", .str "process"),
      ("description", .str "Request routing and authentication")],
    .dict [("name", .str "Business Logic"), ("type", .str "process"),
      ("description", .str "Data processing and business rules")],
    .dict [("name", .str "Database"), ("type", .str "data_store"),
      ("description", .str "Persistent data storage")],
    .dict [("name", .str "Cache"), ("type", .str "data_store"),
      ("description", .str "Temporary data storage")],
    .dict [("name", .str "User Interface"), ("type", .str "destination"),
      ("description", .str "Response to user")]]
  let mermaid_code ← generate_architecture_diagram components "data_flow"
  let (m', memory_id) := storeVisualizationR m "data_flow" mermaid_code
    "Data flow diagram showing how data moves through the system"
  pure (.dict [("diagram_type", .str "data_flow"), ("mermaid_code", .str mermaid_code),
    ("description", .str "Data flow diagram showing how data moves through the system"),
    ("memory_id", .str memory_id)], m')

/-- One workflow step built from a strategy phase: the description
joins the deliverables (Python `', '.join` requires string elements). -/
def workflowStepOfPhase (phase : PyVal) : Except PyExc PyVal := do
  let name ← pyGet phase "name" (.str "Phase")
  let duration ← pyGet phase "duration" (.str "2 weeks")
  let deliverables ← pyGet phase "deliverables" (.list [])
  let delivs ← pyIter deliverables
  let strs ← delivs.mapM (fun d =>
    match d with
    | .str s => Except.ok s
    | _ => Except.error PyExc.typeError)
  pure (.dict [("name", name), ("type", .str "process"),
    ("description", .str (pyStr duration ++ " - " ++ String.intercalate ", " strs))])

/-- `create_project_workflow_diagram`: needs a solution strategy, turns
its implementation phases into workflow steps between fixed start and
end nodes. -/
def create_project_workflow_diagram (m : MockMemory) :
    Except PyExc (PyVal × MockMemory) := do
  match getLatestR m "solution_strategy" with
  | Option.none =>
    pure (.dict [("error", .str "No solution strategy found in memory")], m)
  | some ss => do
    let md ← pyGet (.dict [("id", .str ss.id), ("content", .str ss.content),
      ("metadata", ss.metadata)]) "metadata" (.dict [])
    let strategy_data ← pyGet md "data" (.dict [])
    let implementation ← pyGet strategy_data "implementation_approach" (.dict [])
    let phases ← pyGet implementation "phases" (.list [])
    let phasesList ← pyIter phases
    let phaseSteps ← phasesList.mapM workflowStepOfPhase
    let workflow_steps :=
      (.dict [("name", .str "Project Start"), ("type", .str "start"),
        ("description", .str "Project initiation and kickoff")] : PyVal) ::
      phaseSteps ++
      [.dict [("name", .str "Project Completion"), ("type", .str "end"),
        ("description", .str "Final delivery and handover")]]
    let mermaid_code ← generateWorkflowDiagram workflow_steps
    let (m', memory_id) := storeVisualizationR m "project_workflow" mermaid_code
      "Project workflow diagram showing implementation phases"
    pure (.dict [("diagram_type", .str "project_workflow"),
      ("mermaid_code", .str mermaid_code),
      ("description", .str "Project workflow diagram showing implementation phases"),
      ("memory_id", .str memory_id)], m')

/-- The fixed participants of `create_sequence_diagram`. -/
def sequenceParticipants : List String :=
  ["User", "Frontend", "API Gateway", "Backend Service", "Database"]

/-- The fixed interactions of `create_sequence_diagram`. -/
def sequenceInteractions : List PyVal := [
  .dict [("from", .str "User"), ("to", .str "Frontend"),
    ("message", .str "Submit request"), ("type", .str "->")],
  .dict [("from", .str "Frontend"), ("to", .str "API Gateway"),
    ("message", .str "API call"), ("type", .str "->")],
  .dict [("from", .str "API Gateway"), ("to", .str "Backend Service"),
    ("message", .str "Process request"), ("type", .str "->")],
  .dict [("from", .str "Backend Service"), ("to", .str "Database"),
    ("message", .str "Query data"), ("type", .str "->")],
  .dict [("from", .str "Database"), ("to", .str "Backend Service"),
    ("message", .str "Return data"), ("type", .str "-->")],
  .dict [("from", .str "Backend Service"), ("to", .str "API Gateway"),
    ("message", .str "Return response"), ("type", .str "-->")],
  .dict [("from", .str "API Gateway"), ("to", .str "Frontend"),
    ("message", .str "Return data"), ("type", .str "-->")],
  .dict [("from", .str "Frontend"), ("to", .str "User"),
    ("message", .str "Display result"), ("type", .str "-->")]]

/-- `create_sequence_diagram`: no memory check — renders and stores the
fixed interaction script unconditionally. -/
def create_sequence_diagram (m : MockMemory) : Except PyExc (PyVal × MockMemory) := do
  let mermaid_code ← generateSequenceDiagram sequenceParticipants sequenceInteractions
  let (m', memory_id) := storeVisualizationR m "sequence" mermaid_code
    "Sequence diagram showing system interactions"
  pure (.dict [("diagram_type", .str "sequence"), ("mermaid_code", .str mermaid_code),
    ("description", .str "Sequence diagram showing system interactions"),
    ("memory_id", .str memory_id)], m')

/-- The fixed entities of `create_database_er_diagram`. -/
def erEntities : List PyVal := [
  .dict [("name", .str "User"), ("attributes", .list [
    .dict [("name", .str "id"), ("type", .str "int"), ("constraint", .str "PK")],
    .dict [("name", .str "email"), ("type", .str "varchar"),
      ("constraint", .str "UNIQUE")],
    .dict [("name", .str "password_hash"), ("type", .str "varchar")],
    .dict [("name", .str "created_at"), ("type", .str "timestamp")],
    .dict [("name", .str "updated_at"), ("type", .str "timestamp")]])],
  .dict [("name", .str "Project"), ("attributes", .list [
    .dict [("name", .str "id"), ("type", .str "int"), ("constraint", .str "PK")],
    .dict [("name", .str "name"), ("type", .str "varchar")],
    .dict [("name", .str "description"), ("type", .str "text")],
    .dict [("name", .str "status"), ("type", .str "varchar")],
    .dict [("name", .str "created_at"), ("type", .str "timestamp")]])],
  .dict [("name", .str "Task"), ("attributes", .list [
    .dict [("name", .str "id"), ("type", .str "int"), ("constraint", .str "PK")],
    .dict [("name", .str "title"), ("type", .str "varchar")],
    .dict [("name", .str "description"), ("type", .str "text")],
    .dict [("name", .str "status"), ("type", .str "varchar")],
    .dict [("name", .str "priority"), ("type", .str "varchar")],
    .dict [("name", .str "due_date"), ("type", .str "date")]])]]

/-- `create_database_er_diagram`: no memory check — renders and stores
the fixed entities unconditionally. -/
def create_database_er_diagram (m : MockMemory) : Except PyExc (PyVal × MockMemory) := do
  let mermaid_code ← generateErDiagram erEntities
  let (m', memory_id) := storeVisualizationR m "database_er" mermaid_code
    "Database entity-relationship diagram"
  pure (.dict [("diagram_type", .str "database_er"), ("mermaid_code", .str mermaid_code),
    ("description", .str "Database entity-relationship diagram"),
    ("memory_id", .str memory_id)], m')

/-- Python message of a raised exception (`str(e)`; no claim inspects
this text, only the presence of the `error` key). -/
def excMsg : PyExc → String
  | .typeError => "TypeError"
  | .attributeError => "AttributeError"
  | .keyError => "KeyError"
  | .zeroDivisionError => "division by zero"
  | .indexError => "IndexError"

/-- One try/except around a builder: a raised exception becomes a
`raised` outcome; the store write is the last effect of every builder,
so an exception leaves the store unchanged. -/
def runBuilder (f : MockMemory → Except PyExc (PyVal × MockMemory)) (m : MockMemory) :
    GenOutcome × MockMemory :=
  match f m with
  | .ok (v, m') => (.returned v, m')
  | .error e => (.raised (excMsg e), m)

/-- `create_all_diagrams`: the six builders run in source order, each
in its own try/except, and the batch is assembled from the six
outcomes. -/
def create_all_diagrams (m : MockMemory) : BatchResult × MockMemory :=
  let (o1, m1) := runBuilder create_system_architecture_diagram m
  let (o2, m2) := runBuilder create_infrastructure_diagram m1
  let (o3, m3) := runBuilder create_data_flow_diagram m2
  let (o4, m4) := runBuilder create_project_workflow_diagram m3
  let (o5, m5) := runBuilder create_sequence_diagram m4
  let (o6, m6) := runBuilder create_database_er_diagram m5
  (assembleBatch [("system_architecture", o1), ("infrastructure", o2), ("data_flow", o3),
    ("project_workflow", o4), ("sequence", o5), ("database_er", o6)], m6)

/-! ## Theorems -/

/-- Stripping character lists is idempotent. -/
theorem stripChars_idempotent (l : List Char) :
    stripChars (stripChars l) = stripChars l := by
  unfold stripChars
  have h1 : ((l.dropWhile pySpace).rdropWhile pySpace).dropWhile pySpace
      = (l.dropWhile pySpace).rdropWhile pySpace := by
    rw [List.dropWhile_eq_self_iff]
    intro hl
    have hpre : (l.dropWhile pySpace).rdropWhile pySpace <+: l.dropWhile pySpace :=
      List.rdropWhile_prefix _ _
    have hne : (l.dropWhile pySpace).rdropWhile pySpace ≠ [] :=
      List.length_pos.mp hl
    have hlen : 0 < (l.dropWhile pySpace).length :=
      lt_of_lt_of_le hl hpre.length_le
    have hhead := hpre.head hne
    have hnot := List.dropWhile_get_zero_not pySpace l hlen
    rw [List.get_mk_zero] at hnot ⊢
    rw [hhead]
    convert hnot using 2
  rw [h1, List.rdropWhile_idempotent]

/-- Stripping strings is idempotent. -/
theorem pyStrip_idempotent (s : String) : pyStrip (pyStrip s) = pyStrip s := by
  simp only [pyStrip, stripChars_idempotent]

/-- Every element of a cleaned list is stripped and non-empty, and the
cleaned list has no duplicates; membership is exactly membership in the
stripped-and-filtered input (so deduplication is case-sensitive). -/
theorem cleanupList_clean (xs : List String) :
    IsCleanList (cleanupList xs)
    ∧ ∀ s, s ∈ cleanupList xs ↔ s ∈ (xs.filter (fun item => pyStrip item != "")).map pyStrip := by
  refine ⟨⟨List.nodup_dedup _, ?_⟩, fun s => List.mem_dedup⟩
  intro s hs
  rw [cleanupList, List.mem_dedup, List.mem_map] at hs
  obtain ⟨t, ht, rfl⟩ := hs
  have htne : pyStrip t ≠ "" := by
    have := List.of_mem_filter ht
    simpa using this
  exact ⟨pyStrip_idempotent t, htne⟩

/-- C1, counterexample: the claim asserts
`classify("Missing security requirements information") = medium`, but the
lowercased item contains the high keyword `"requirements"` and the high
set is tested first, so the code classifies it high, not medium. -/
theorem classifyItem_security_requirements_not_medium :
    classifyItem "Missing security requirements information" ≠ Priority.medium := by
  decide

/-- C1 (amended): the triage lowercases the item and tests substring
membership against the fixed keyword sets, the first matching set
winning (high before medium, low by default), hence
`classify("Missing budget information") = high`,
`classify("Missing security requirements information") = high` (it
contains the high keyword `"requirements"`),
`classify("Missing background information") = low`, and
`classify("") = low` without crashing. -/
theorem classifyItem_triage_examples :
    classifyItem "Missing budget information" = Priority.high
    ∧ classifyItem "Missing security requirements information" = Priority.high
    ∧ classifyItem "Missing background information" = Priority.low
    ∧ classifyItem "" = Priority.low := by
  refine ⟨?_, ?_, ?_, ?_⟩ <;> decide

/-- C9: in the requirements object produced from any input text (any
outcome of the regex matching), every list-valued field contains only
non-empty stripped strings with duplicates removed case-sensitively. -/
theorem extract_requirements_list_fields_clean (m : RawMatches) :
    IsCleanList (extract_requirements_from_text m).functional_requirements
    ∧ IsCleanList (extract_requirements_from_text m).non_functional_requirements
    ∧ IsCleanList (extract_requirements_from_text m).technical_constraints
    ∧ IsCleanList (extract_requirements_from_text m).budget_constraints
    ∧ IsCleanList (extract_requirements_from_text m).timeline_constraints
    ∧ IsCleanList (extract_requirements_from_text m).key_stakeholders
    ∧ IsCleanList (extract_requirements_from_text m).success_criteria :=
  ⟨(cleanupList_clean _).1, (cleanupList_clean _).1, (cleanupList_clean _).1,
   (cleanupList_clean _).1, (cleanupList_clean _).1, (cleanupList_clean _).1,
   (cleanupList_clean _).1⟩

/-- C9, witness: the invariant evaluated at a concrete match outcome
containing whitespace-padded, duplicate and empty captures. -/
theorem extract_requirements_list_fields_clean_witness :
    IsCleanList (extract_requirements_from_text
      ⟨[[" support barcode scanning ", "support barcode scanning", ""]],
       [["$100,000", "$100,000"]], [["4 months"]], [[]], [" Acme Corp "],
       [[], ["deliver a warehouse system"]]⟩).functional_requirements
    ∧ IsCleanList (extract_requirements_from_text
      ⟨[[" support barcode scanning ", "support barcode scanning", ""]],
       [["$100,000", "$100,000"]], [["4 months"]], [[]], [" Acme Corp "],
       [[], ["deliver a warehouse system"]]⟩).non_functional_requirements
    ∧ IsCleanList (extract_requirements_from_text
      ⟨[[" support barcode scanning ", "support barcode scanning", ""]],
       [["$100,000", "$100,000"]], [["4 months"]], [[]], [" Acme Corp "],
       [[], ["deliver a warehouse system"]]⟩).technical_constraints
    ∧ IsCleanList (extract_requirements_from_text
      ⟨[[" support barcode scanning ", "support barcode scanning", ""]],
       [["$100,000", "$100,000"]], [["4 months"]], [[]], [" Acme Corp "],
       [[], ["deliver a warehouse system"]]⟩).budget_constraints
    ∧ IsCleanList (extract_requirements_from_text
      ⟨[[" support barcode scanning ", "support barcode scanning", ""]],
       [["$100,000", "$100,000"]], [["4 months"]], [[]], [" Acme Corp "],
       [[], ["deliver a warehouse system"]]⟩).timeline_constraints
    ∧ IsCleanList (extract_requirements_from_text
      ⟨[[" support barcode scanning ", "support barcode scanning", ""]],
       [["$100,000", "$100,000"]], [["4 months"]], [[]], [" Acme Corp "],
       [[], ["deliver a warehouse system"]]⟩).key_stakeholders
    ∧ IsCleanList (extract_requirements_from_text
      ⟨[[" support barcode scanning ", "support barcode scanning", ""]],
       [["$100,000", "$100,000"]], [["4 months"]], [[]], [" Acme Corp "],
       [[], ["deliver a warehouse system"]]⟩).success_criteria :=
  extract_requirements_list_fields_clean
    ⟨[[" support barcode scanning ", "support barcode scanning", ""]],
     [["$100,000", "$100,000"]], [["4 months"]], [[]], [" Acme Corp "],
     [[], ["deliver a warehouse system"]]⟩

/-- The infrastructure loop body never decreases a non-negative
accumulator when the component cost fields are non-negative. -/
theorem infraStep_nonneg (duration_weeks : Int) (hd : 0 ≤ duration_weeks)
    (acc : ℚ) (c : CostComponent) (hacc : 0 ≤ acc)
    (hm : 0 ≤ c.monthly_cost.getD 100) (ho : 0 ≤ c.one_time_cost.getD 0)
    (hl : 0 ≤ c.license_cost.getD 0) :
    0 ≤ infraStep duration_weeks acc c := by
  have hdq : (0:ℚ) ≤ (duration_weeks:ℚ) / 4 :=
    div_nonneg (by exact_mod_cast hd) (by norm_num)
  simp only [infraStep]
  split
  · exact add_nonneg hacc (mul_nonneg hm hdq)
  · split
    · exact add_nonneg hacc ho
    · split
      · split
        · exact add_nonneg hacc (mul_nonneg hl hdq)
        · exact add_nonneg hacc hl
      · exact hacc

/-- The infrastructure fold stays non-negative. -/
theorem infra_foldl_nonneg (duration_weeks : Int) (hd : 0 ≤ duration_weeks) :
    ∀ (l : List CostComponent),
      (∀ c ∈ l, 0 ≤ c.monthly_cost.getD 100 ∧ 0 ≤ c.one_time_cost.getD 0
        ∧ 0 ≤ c.license_cost.getD 0) →
      ∀ acc : ℚ, 0 ≤ acc → 0 ≤ l.foldl (infraStep duration_weeks) acc
  | [], _, acc, hacc => by simpa using hacc
  | c :: cs, hl, acc, hacc => by
    have hc := hl c (List.mem_cons_self _ _)
    exact infra_foldl_nonneg duration_weeks hd cs
      (fun x hx => hl x (List.mem_cons_of_mem _ hx)) _
      (infraStep_nonneg duration_weeks hd acc c hacc hc.1 hc.2.1 hc.2.2)

/-- The third-party loop body never decreases a non-negative
accumulator when the monthly cost is non-negative. -/
theorem thirdPartyStep_nonneg (duration_weeks : Int) (hd : 0 ≤ duration_weeks)
    (acc : ℚ) (c : CostComponent) (hacc : 0 ≤ acc)
    (hm : 0 ≤ c.monthly_cost.getD 100) :
    0 ≤ thirdPartyStep duration_weeks acc c := by
  have hdq : (0:ℚ) ≤ (duration_weeks:ℚ) / 4 :=
    div_nonneg (by exact_mod_cast hd) (by norm_num)
  have hm50 : 0 ≤ c.monthly_cost.getD 50 := by
    cases h : c.monthly_cost with
    | none => norm_num
    | some q => rw [h] at hm; simpa using hm
  simp only [thirdPartyStep]
  split
  · exact add_nonneg hacc (mul_nonneg hm50 hdq)
  · exact hacc

/-- The third-party fold stays non-negative. -/
theorem third_foldl_nonneg (duration_weeks : Int) (hd : 0 ≤ duration_weeks) :
    ∀ (l : List CostComponent),
      (∀ c ∈ l, 0 ≤ c.monthly_cost.getD 100 ∧ 0 ≤ c.one_time_cost.getD 0
        ∧ 0 ≤ c.license_cost.getD 0) →
      ∀ acc : ℚ, 0 ≤ acc → 0 ≤ l.foldl (thirdPartyStep duration_weeks) acc
  | [], _, acc, hacc => by simpa using hacc
  | c :: cs, hl, acc, hacc => by
    have hc := hl c (List.mem_cons_self _ _)
    exact third_foldl_nonneg duration_weeks hd cs
      (fun x hx => hl x (List.mem_cons_of_mem _ hx)) _
      (thirdPartyStep_nonneg duration_weeks hd acc c hacc hc.1)

/-- C10, counterexample: the claim asserts that every call with
`team_size ≥ 1` and `duration_weeks ≥ 1` computes all percentages
without division by zero, but with one cloud-service component whose
`monthly_cost` is -12000 (and `team_size = 1`, `duration_weeks = 1`,
all values dyadic so Python float arithmetic is exact) the subtotal is
`3000 + (-12000) * (1/4) = 0`, `total_cost` is `0.0`, and the first
percentage division raises `ZeroDivisionError`. -/
theorem estimate_project_costs_counterexample :
    estimate_project_costs
      [⟨some "cloud_service", some (-12000), Option.none, Option.none, Option.none⟩] 1 1
      = Except.error PyExc.zeroDivisionError := by
  have hne : "cloud_service" ≠ "third_party_service" := by decide
  have h : costTotal
      [⟨some "cloud_service", some (-12000), Option.none, Option.none, Option.none⟩] 1 1 = 0 := by
    norm_num [costTotal, costSubtotal, costContingency, laborCost, infrastructureCost,
      thirdPartyCost, infraStep, thirdPartyStep, hne]
  unfold estimate_project_costs
  rw [if_pos h]

/-- C10 (amended): `estimate_project_costs` divides each category by
`total_cost` with no zero guard; with `team_size ≥ 1`,
`duration_weeks ≥ 1` and non-negative component cost fields the labor
cost is positive, hence `total_cost > 0` and the four percentages are
computed without division by zero; and for `team_size = 0` with an
empty component list (at the source default `duration_weeks = 12`) the
total cost is zero and the percentage computation raises
`ZeroDivisionError`. -/
theorem estimate_project_costs_division_safety
    (components : List CostComponent) (team_size duration_weeks : Int)
    (hteam : 1 ≤ team_size) (hdur : 1 ≤ duration_weeks)
    (hcomp : ∀ c ∈ components, 0 ≤ c.monthly_cost.getD 100
      ∧ 0 ≤ c.one_time_cost.getD 0 ∧ 0 ≤ c.license_cost.getD 0) :
    (∃ b, estimate_project_costs components team_size duration_weeks = Except.ok b
      ∧ 0 < b.labor_cost.amount ∧ 0 < b.total_cost)
    ∧ estimate_project_costs [] 0 12 = Except.error PyExc.zeroDivisionError := by
  have hteamq : (1:ℚ) ≤ (team_size:ℚ) := by exact_mod_cast hteam
  have hdurq : (1:ℚ) ≤ (duration_weeks:ℚ) := by exact_mod_cast hdur
  have ht0 : (0:ℚ) < (team_size:ℚ) := lt_of_lt_of_le one_pos hteamq
  have hd0 : (0:ℚ) < (duration_weeks:ℚ) := lt_of_lt_of_le one_pos hdurq
  have hlab : 0 < laborCost team_size duration_weeks := by
    unfold laborCost
    exact mul_pos (mul_pos (mul_pos ht0 (by norm_num)) (by norm_num)) hd0
  have hinf : 0 ≤ infrastructureCost components duration_weeks :=
    infra_foldl_nonneg duration_weeks (le_trans zero_le_one hdur) components hcomp 0 le_rfl
  have hthird : 0 ≤ thirdPartyCost components duration_weeks :=
    third_foldl_nonneg duration_weeks (le_trans zero_le_one hdur) components hcomp 0 le_rfl
  have hsub : 0 < costSubtotal components team_size duration_weeks := by
    unfold costSubtotal
    unfold infrastructureCost at hinf
    unfold thirdPartyCost at hthird
    unfold infrastructureCost thirdPartyCost
    linarith
  have htot : 0 < costTotal components team_size duration_weeks := by
    unfold costTotal costContingency
    linarith
  have h0 : costTotal [] 0 12 = 0 := by
    norm_num [costTotal, costSubtotal, costContingency, laborCost, infrastructureCost,
      thirdPartyCost]
  constructor
  · unfold estimate_project_costs
    rw [if_neg htot.ne']
    exact ⟨_, rfl, hlab, htot⟩
  · unfold estimate_project_costs
    rw [if_pos h0]

/-- C10, witness: the amended theorem applied at `team_size = 1`,
`duration_weeks = 1` and no components. -/
theorem estimate_project_costs_division_safety_witness :
    (∃ b, estimate_project_costs [] 1 1 = Except.ok b
      ∧ 0 < b.labor_cost.amount ∧ 0 < b.total_cost)
    ∧ estimate_project_costs [] 0 12 = Except.error PyExc.zeroDivisionError :=
  estimate_project_costs_division_safety [] 1 1 (by norm_num) (by norm_num)
    (by intro c hc; cases hc)

/-- C2, code evaluation at the failing input: on the MockMemory backend
the first store raises TypeError (the call site passes `user_id`, which
`MockMemory.search` does not accept); and even with that signature
repaired, after storing three analyses `get_latest("tender_analysis")`
returns None — not the third record — and `get_all("tender_analysis")`
returns `[]` — not the three records — because the search query
`"tender_analysis"` (underscore) never occurs in the stored content
`"Tender Analysis: {...}"` (space), although the three entries are in
the store. -/
theorem store_recency_bug_eval :
    store_tender_analysis emptyMemory (.dict [("summary", .str "alpha")])
      = .error .typeError
    ∧ (getLatestR (storeTenderAnalysisR (storeTenderAnalysisR
        (storeTenderAnalysisR emptyMemory (.dict [("summary", .str "alpha")])).1
        (.dict [("summary", .str "beta")])).1
        (.dict [("summary", .str "gamma")])).1 "tender_analysis" = Option.none)
    ∧ (getAllR (storeTenderAnalysisR (storeTenderAnalysisR
        (storeTenderAnalysisR emptyMemory (.dict [("summary", .str "alpha")])).1
        (.dict [("summary", .str "beta")])).1
        (.dict [("summary", .str "gamma")])).1 "tender_analysis" = [])
    ∧ ((storeTenderAnalysisR (storeTenderAnalysisR
        (storeTenderAnalysisR emptyMemory (.dict [("summary", .str "alpha")])).1
        (.dict [("summary", .str "beta")])).1
        (.dict [("summary", .str "gamma")])).1.memories.length = 3) :=
  ⟨rfl, rfl, rfl, rfl⟩

/-- C3, code evaluation at the failing input: two successive stores
(signature repaired) both assign the id `"tender_analysis_0"` — the
sequence number is the number of search hits for `"tender_analysis"`,
which stays 0 because the stored content reads `"Tender Analysis: ..."`
— so the second id is not `"tender_analysis_1"` although one record of
the type already exists at the second write, and the two ids collide. -/
theorem store_id_collision_eval :
    (storeTenderAnalysisR emptyMemory (.dict [("summary", .str "first")])).2
      = "tender_analysis_0"
    ∧ (storeTenderAnalysisR
        (storeTenderAnalysisR emptyMemory (.dict [("summary", .str "first")])).1
        (.dict [("summary", .str "second")])).2 = "tender_analysis_0"
    ∧ (storeTenderAnalysisR emptyMemory
        (.dict [("summary", .str "first")])).1.memories.length = 1 :=
  ⟨rfl, rfl, rfl⟩

/-- For every flag assignment, completed and missing partition the
pipeline list, the progress formula commutes, and the head of the
missing list is the first pipeline step not completed. -/
theorem flags_partition (b1 b2 b3 b4 b5 : Bool) :
    (completedOfFlags b1 b2 b3 b4 b5 ++ missingOfFlags b1 b2 b3 b4 b5).Perm pipelineSteps
    ∧ ((completedOfFlags b1 b2 b3 b4 b5).all
        (fun s => !(missingOfFlags b1 b2 b3 b4 b5).contains s) = true)
    ∧ ((((completedOfFlags b1 b2 b3 b4 b5).length : ℚ) / 5) * 100
        = 100 * ((completedOfFlags b1 b2 b3 b4 b5).length : ℚ) / 5)
    ∧ ((match missingOfFlags b1 b2 b3 b4 b5 with
        | [] => "complete"
        | s :: _ => s)
        = (pipelineSteps.filter
            (fun s => !(completedOfFlags b1 b2 b3 b4 b5).contains s)).headD "complete") := by
  cases b1 <;> cases b2 <;> cases b3 <;> cases b4 <;> cases b5 <;>
    exact ⟨by decide, by decide, by norm_num [completedOfFlags], by decide⟩

/-- C5: for every store state, `check_workflow_status` returns
`completed_steps` and `missing_steps` that are disjoint and together a
permutation of the fixed five-stage list, `progress_percentage` equal
to `100 * |completed_steps| / 5`, and `next_recommended_step` equal to
the first missing step in canonical pipeline order, or `"complete"`
when no step is missing. -/
theorem check_workflow_status_contract (m : MockMemory) :
    ((check_workflow_status m).completed_steps
        ++ (check_workflow_status m).missing_steps).Perm pipelineSteps
    ∧ ((check_workflow_status m).completed_steps.all
        (fun s => !(check_workflow_status m).missing_steps.contains s) = true)
    ∧ (check_workflow_status m).progress_percentage
        = 100 * ((check_workflow_status m).completed_steps.length : ℚ) / 5
    ∧ (check_workflow_status m).next_recommended_step
        = ((pipelineSteps.filter
            (fun s => !(check_workflow_status m).completed_steps.contains s)).headD
            "complete") :=
  flags_partition _ _ _ _ _

/-- C8: the workflow composition short-circuits at the first raised
error, returning a result tagged status `"failed"` that wraps the
originating error and contains the results of every step that
succeeded before it; when no step raises it returns status
`"completed"` with all five step results present. -/
theorem run_complete_workflow_short_circuit (s1 s2 s3 s4 s5 : Except String PyVal) :
    (∀ e, s1 = .error e →
      run_complete_workflow s1 s2 s3 s4 s5 = ⟨"failed", some e, [], Option.none⟩)
    ∧ (∀ r1 e, s1 = .ok r1 → s2 = .error e →
      run_complete_workflow s1 s2 s3 s4 s5
        = ⟨"failed", some e, [("tender_analysis", r1)], Option.none⟩)
    ∧ (∀ r1 r2 e, s1 = .ok r1 → s2 = .ok r2 → s3 = .error e →
      run_complete_workflow s1 s2 s3 s4 s5
        = ⟨"failed", some e,
            [("tender_analysis", r1), ("solution_strategy", r2)], Option.none⟩)
    ∧ (∀ r1 r2 r3 e, s1 = .ok r1 → s2 = .ok r2 → s3 = .ok r3 → s4 = .error e →
      run_complete_workflow s1 s2 s3 s4 s5
        = ⟨"failed", some e,
            [("tender_analysis", r1), ("solution_strategy", r2),
             ("visualizations", r3)], Option.none⟩)
    ∧ (∀ r1 r2 r3 r4 e,
        s1 = .ok r1 → s2 = .ok r2 → s3 = .ok r3 → s4 = .ok r4 → s5 = .error e →
      run_complete_workflow s1 s2 s3 s4 s5
        = ⟨"failed", some e,
            [("tender_analysis", r1), ("solution_strategy", r2),
             ("visualizations", r3), ("project_plan", r4)], Option.none⟩)
    ∧ (∀ r1 r2 r3 r4 r5,
        s1 = .ok r1 → s2 = .ok r2 → s3 = .ok r3 → s4 = .ok r4 → s5 = .ok r5 →
      run_complete_workflow s1 s2 s3 s4 s5
        = ⟨"completed", Option.none,
            [("tender_analysis", r1), ("solution_strategy", r2),
             ("visualizations", r3), ("project_plan", r4), ("final_proposal", r5)],
            some "All steps completed successfully"⟩) := by
  refine ⟨?_, ?_, ?_, ?_, ?_, ?_⟩
  · rintro e rfl; rfl
  · rintro r1 e rfl rfl; rfl
  · rintro r1 r2 e rfl rfl rfl; rfl
  · rintro r1 r2 r3 e rfl rfl rfl rfl; rfl
  · rintro r1 r2 r3 r4 e rfl rfl rfl rfl rfl; rfl
  · rintro r1 r2 r3 r4 r5 rfl rfl rfl rfl rfl; rfl

/-- C8, witness: the third step raises, the first two succeed — the
result is tagged failed, wraps the error text, and keeps exactly the
first two step results. -/
theorem run_complete_workflow_short_circuit_witness :
    run_complete_workflow (.ok (.str "a1")) (.ok (.str "a2"))
      (.error "agent backend unavailable") (.ok (.str "a4")) (.ok (.str "a5"))
      = ⟨"failed", some "agent backend unavailable",
          [("tender_analysis", .str "a1"), ("solution_strategy", .str "a2")],
          Option.none⟩ :=
  (run_complete_workflow_short_circuit (.ok (.str "a1")) (.ok (.str "a2"))
    (.error "agent backend unavailable") (.ok (.str "a4"))
    (.ok (.str "a5"))).2.2.1 (.str "a1") (.str "a2")
    "agent backend unavailable" rfl rfl rfl

/-- C6: if exactly 2 of the 6 diagram generations raise and the other
4 return valid payload dicts, `create_all_diagrams` still assembles a
batch (it does not abort) with `total_diagrams = 6` and
`successful_diagrams = 4`; every raised generation contributes an
entry carrying the `error` field with the exception text, and every
successful generation contributes its payload unchanged. -/
theorem create_all_diagrams_partial_batch (o1 o2 o3 o4 o5 o6 : GenOutcome)
    (hraise : ([o1, o2, o3, o4, o5, o6].filter GenOutcome.isRaised).length = 2)
    (hok : ∀ o ∈ [o1, o2, o3, o4, o5, o6],
      o.isRaised = false → o.isValidPayload = true) :
    (assembleBatch [("system_architecture", o1), ("infrastructure", o2), ("data_flow", o3),
        ("project_workflow", o4), ("sequence", o5),
        ("database_er", o6)]).total_diagrams = 6
    ∧ (assembleBatch [("system_architecture", o1), ("infrastructure", o2), ("data_flow", o3),
        ("project_workflow", o4), ("sequence", o5),
        ("database_er", o6)]).successful_diagrams = 4
    ∧ (∀ ko ∈ [("system_architecture", o1), ("infrastructure", o2), ("data_flow", o3),
        ("project_workflow", o4), ("sequence", o5), ("database_er", o6)],
        (∀ msg, ko.2 = GenOutcome.raised msg →
          (ko.1, PyVal.dict [("error", PyVal.str msg)])
            ∈ (assembleBatch [("system_architecture", o1), ("infrastructure", o2),
                ("data_flow", o3), ("project_workflow", o4), ("sequence", o5),
                ("database_er", o6)]).diagrams)
        ∧ (∀ v, ko.2 = GenOutcome.returned v →
          (ko.1, v) ∈ (assembleBatch [("system_architecture", o1), ("infrastructure", o2),
              ("data_flow", o3), ("project_workflow", o4), ("sequence", o5),
              ("database_er", o6)]).diagrams)) := by
  have k1 := hok o1 (by simp)
  have k2 := hok o2 (by simp)
  have k3 := hok o3 (by simp)
  have k4 := hok o4 (by simp)
  have k5 := hok o5 (by simp)
  have k6 := hok o6 (by simp)
  have e1 : (!hasErrorKey (tryEntry o1)) = !o1.isRaised := by
    cases o1 with
    | raised msg => simp [tryEntry, hasErrorKey, GenOutcome.isRaised]
    | returned v =>
      simpa [tryEntry, GenOutcome.isRaised, GenOutcome.isValidPayload] using k1 rfl
  have e2 : (!hasErrorKey (tryEntry o2)) = !o2.isRaised := by
    cases o2 with
    | raised msg => simp [tryEntry, hasErrorKey, GenOutcome.isRaised]
    | returned v =>
      simpa [tryEntry, GenOutcome.isRaised, GenOutcome.isValidPayload] using k2 rfl
  have e3 : (!hasErrorKey (tryEntry o3)) = !o3.isRaised := by
    cases o3 with
    | raised msg => simp [tryEntry, hasErrorKey, GenOutcome.isRaised]
    | returned v =>
      simpa [tryEntry, GenOutcome.isRaised, GenOutcome.isValidPayload] using k3 rfl
  have e4 : (!hasErrorKey (tryEntry o4)) = !o4.isRaised := by
    cases o4 with
    | raised msg => simp [tryEntry, hasErrorKey, GenOutcome.isRaised]
    | returned v =>
      simpa [tryEntry, GenOutcome.isRaised, GenOutcome.isValidPayload] using k4 rfl
  have e5 : (!hasErrorKey (tryEntry o5)) = !o5.isRaised := by
    cases o5 with
    | raised msg => simp [tryEntry, hasErrorKey, GenOutcome.isRaised]
    | returned v =>
      simpa [tryEntry, GenOutcome.isRaised, GenOutcome.isValidPayload] using k5 rfl
  have e6 : (!hasErrorKey (tryEntry o6)) = !o6.isRaised := by
    cases o6 with
    | raised msg => simp [tryEntry, hasErrorKey, GenOutcome.isRaised]
    | returned v =>
      simpa [tryEntry, GenOutcome.isRaised, GenOutcome.isValidPayload] using k6 rfl
  refine ⟨rfl, ?_, ?_⟩
  · have hsum := hraise
    simp only [List.filter_cons, List.filter_nil] at hsum
    simp only [assembleBatch, List.map_cons, List.map_nil, List.filter_cons,
      List.filter_nil, e1, e2, e3, e4, e5, e6]
    clear hraise hok k1 k2 k3 k4 k5 k6 e1 e2 e3 e4 e5 e6
    cases h1 : o1.isRaised <;> cases h2 : o2.isRaised <;> cases h3 : o3.isRaised <;>
      cases h4 : o4.isRaised <;> cases h5 : o5.isRaised <;> cases h6 : o6.isRaised <;>
      simp_all
  · intro ko hko
    have hmem : (ko.1, tryEntry ko.2)
        ∈ (assembleBatch [("system_architecture", o1), ("infrastructure", o2),
            ("data_flow", o3), ("project_workflow", o4), ("sequence", o5),
            ("database_er", o6)]).diagrams :=
      List.mem_map_of_mem (fun p => (p.1, tryEntry p.2)) hko
    constructor
    · intro msg hmsg
      rw [hmsg] at hmem
      simpa [tryEntry] using hmem
    · intro v hv
      rw [hv] at hmem
      simpa [tryEntry] using hmem

/-- C6, witness: the first and fourth generations raise, the other
four return payload dicts. -/
theorem create_all_diagrams_partial_batch_witness :
    (assembleBatch [("system_architecture", .raised "no strategy data"),
        ("infrastructure", .returned (.dict [("diagram_type", .str "infrastructure")])),
        ("data_flow", .returned (.dict [("diagram_type", .str "data_flow")])),
        ("project_workflow", .raised "phases malformed"),
        ("sequence", .returned (.dict [("diagram_type", .str "sequence")])),
        ("database_er", .returned (.dict [("diagram_type", .str "database_er")]))]).total_diagrams
      = 6
    ∧ (assembleBatch [("system_architecture", .raised "no strategy data"),
        ("infrastructure", .returned (.dict [("diagram_type", .str "infrastructure")])),
        ("data_flow", .returned (.dict [("diagram_type", .str "data_flow")])),
        ("project_workflow", .raised "phases malformed"),
        ("sequence", .returned (.dict [("diagram_type", .str "sequence")])),
        ("database_er",
          .returned (.dict [("diagram_type", .str "database_er")]))]).successful_diagrams
      = 4
    ∧ (∀ ko ∈ [("system_architecture", GenOutcome.raised "no strategy data"),
        ("infrastructure", GenOutcome.returned (.dict [("diagram_type", .str "infrastructure")])),
        ("data_flow", GenOutcome.returned (.dict [("diagram_type", .str "data_flow")])),
        ("project_workflow", GenOutcome.raised "phases malformed"),
        ("sequence", GenOutcome.returned (.dict [("diagram_type", .str "sequence")])),
        ("database_er", GenOutcome.returned (.dict [("diagram_type", .str "database_er")]))],
        (∀ msg, ko.2 = GenOutcome.raised msg →
          (ko.1, PyVal.dict [("error", PyVal.str msg)])
            ∈ (assembleBatch [("system_architecture", .raised "no strategy data"),
                ("infrastructure",
                  .returned (.dict [("diagram_type", .str "infrastructure")])),
                ("data_flow", .returned (.dict [("diagram_type", .str "data_flow")])),
                ("project_workflow", .raised "phases malformed"),
                ("sequence", .returned (.dict [("diagram_type", .str "sequence")])),
                ("database_er",
                  .returned (.dict [("diagram_type", .str "database_er")]))]).diagrams)
        ∧ (∀ v, ko.2 = GenOutcome.returned v →
          (ko.1, v) ∈ (assembleBatch [("system_architecture", .raised "no strategy data"),
              ("infrastructure", .returned (.dict [("diagram_type", .str "infrastructure")])),
              ("data_flow", .returned (.dict [("diagram_type", .str "data_flow")])),
              ("project_workflow", .raised "phases malformed"),
              ("sequence", .returned (.dict [("diagram_type", .str "sequence")])),
              ("database_er",
                .returned (.dict [("diagram_type", .str "database_er")]))]).diagrams)) :=
  create_all_diagrams_partial_batch
    (.raised "no strategy data")
    (.returned (.dict [("diagram_type", .str "infrastructure")]))
    (.returned (.dict [("diagram_type", .str "data_flow")]))
    (.raised "phases malformed")
    (.returned (.dict [("diagram_type", .str "sequence")]))
    (.returned (.dict [("diagram_type", .str "database_er")]))
    (by decide) (by decide)

/-- The cost helper always raises: the generator item for the
development entry is the dict itself (no `"amount"` key) and `0 + dict`
is a TypeError; a non-dict requirements value raises AttributeError at
the `.get` even earlier. -/
theorem estimateSolutionCosts_always_raises (requirements : PyVal) :
    ∃ e, estimateSolutionCosts requirements = .error e := by
  cases requirements with
  | dict kvs =>
    refine ⟨.typeError, ?_⟩
    simp only [estimateSolutionCosts, pyGet]
    cases hf : kvs.find? (fun p => p.1 == "budget_constraints") <;> simp only [hf] <;> rfl
  | none => exact ⟨.attributeError, rfl⟩
  | bool b => exact ⟨.attributeError, rfl⟩
  | int n => exact ⟨.attributeError, rfl⟩
  | str s => exact ⟨.attributeError, rfl⟩
  | list xs => exact ⟨.attributeError, rfl⟩

/-- `pyGet` either returns a value or raises AttributeError. -/
theorem pyGet_ok_or_attr (v : PyVal) (k : String) (d : PyVal) :
    (∃ x, pyGet v k d = .ok x) ∨ pyGet v k d = .error .attributeError := by
  cases v with
  | dict kvs =>
    left
    cases hf : kvs.find? (fun p => p.1 == k) with
    | none => exact ⟨d, by simp [pyGet, hf]⟩
    | some p => exact ⟨p.2, by simp [pyGet, hf]⟩
  | none => right; rfl
  | bool b => right; rfl
  | int n => right; rfl
  | str s => right; rfl
  | list xs => right; rfl

/-- Building the strategy dict always raises: any helper failure
before the cost estimate propagates, and otherwise the cost estimate
itself raises. -/
theorem buildStrategy_always_raises (requirements : PyVal) :
    ∃ e, buildStrategy requirements = .error e := by
  obtain ⟨e6, h6⟩ := estimateSolutionCosts_always_raises requirements
  cases h1 : createSolutionOverview requirements with
  | error e => exact ⟨e, by simp [buildStrategy, Bind.bind, Except.bind, h1]⟩
  | ok v1 =>
    cases h2 : designTechnicalArchitecture requirements with
    | error e => exact ⟨e, by simp [buildStrategy, Bind.bind, Except.bind, h1, h2]⟩
    | ok v2 =>
      cases h3 : selectTechnologyStack requirements with
      | error e => exact ⟨e, by simp [buildStrategy, Bind.bind, Except.bind, h1, h2, h3]⟩
      | ok v3 =>
        exact ⟨e6, by simp [buildStrategy, Bind.bind, Except.bind, h1, h2, h3, h6]⟩

/-- Reduction of the `Except` bind on a success value. -/
theorem exbind_ok {α β : Type} (x : α) (f : α → Except PyExc β) :
    Bind.bind (Except.ok x) f = f x := rfl

/-- Reduction of the `Except` bind on a raised exception. -/
theorem exbind_error {α β : Type} (e : PyExc) (f : α → Except PyExc β) :
    Bind.bind (Except.error e) f = Except.error e := rfl

/-- With a retrieved tender-analysis record the strategy construction
always raises before the store call, whatever the record holds. -/
theorem designWithTender_raises (m : MockMemory) (r : MemoryView) :
    ∃ e, designWithTender m r = .error e := by
  have h0 : pyGet (.dict [("id", .str r.id), ("content", .str r.content),
      ("metadata", r.metadata)]) "metadata" (.dict []) = .ok r.metadata := rfl
  rcases pyGet_ok_or_attr r.metadata "data" (.dict []) with ⟨x, hx⟩ | hx
  · rcases pyGet_ok_or_attr x "requirements" (.dict []) with ⟨y, hy⟩ | hy
    · obtain ⟨e, he⟩ := buildStrategy_always_raises y
      exact ⟨e, by
        simp only [designWithTender, h0, exbind_ok, hx, hy, he, exbind_error]⟩
    · exact ⟨.attributeError, by
        simp only [designWithTender, h0, exbind_ok, hx, hy, exbind_error]⟩
  · exact ⟨.attributeError, by
      simp only [designWithTender, h0, exbind_ok, hx, exbind_error]⟩

/-- C4, counterexample: on the empty store the stage does not raise
any exception — there is no `PrerequisiteMissingError` in the code —
it returns the error dict; after one real store of a tender analysis
the stage still returns the error dict (the record is stored but not
retrievable, see the store claims) instead of succeeding; and even on
a store with a retrievable, well-shaped tender-analysis record the
stage raises TypeError (the cost-sum slip) instead of creating a
solution_strategy record. -/
theorem design_solution_strategy_counterexample :
    design_solution_strategy emptyMemory
      = .ok (.dict [("error", .str "No tender analysis found in memory")], emptyMemory)
    ∧ design_solution_strategy
        (storeTenderAnalysisR emptyMemory (.dict [("summary", .str "alpha")])).1
      = .ok (.dict [("error", .str "No tender analysis found in memory")],
          (storeTenderAnalysisR emptyMemory (.dict [("summary", .str "alpha")])).1)
    ∧ design_solution_strategy seededTenderMemory = .error .typeError :=
  ⟨rfl, rfl, rfl⟩

/-- C4 (amended): when `get_latest_memory("tender_analysis")` yields
nothing, `design_solution_strategy` returns (rather than raising) the
error dict `{"error": "No tender analysis found in memory"}` and the
store is unchanged; when it yields a record, the call raises an
exception (TypeError from the cost-sum slip on well-shaped payloads)
before any store call, so no solution_strategy record is created in
either case. -/
theorem design_solution_strategy_behavior (m : MockMemory) :
    (getLatestR m "tender_analysis" = Option.none →
      design_solution_strategy m
        = .ok (.dict [("error", .str "No tender analysis found in memory")], m))
    ∧ (∀ r, getLatestR m "tender_analysis" = some r →
      ∃ e, design_solution_strategy m = .error e) := by
  constructor
  · intro h
    unfold design_solution_strategy
    rw [h]
  · intro r h
    unfold design_solution_strategy
    rw [h]
    exact designWithTender_raises m r

/-- C4, witness: the amended theorem applied on the empty store and on
the seeded store with a retrievable record. -/
theorem design_solution_strategy_behavior_witness :
    design_solution_strategy emptyMemory
      = .ok (.dict [("error", .str "No tender analysis found in memory")], emptyMemory)
    ∧ ∃ e, design_solution_strategy seededTenderMemory = .error e :=
  ⟨(design_solution_strategy_behavior emptyMemory).1 rfl,
   (design_solution_strategy_behavior seededTenderMemory).2 _ rfl⟩

set_option maxRecDepth 100000 in
/-- C7, counterexample: invoking the Visualization stage on a store
with no solution_strategy record does not fail with any exception — no
`PrerequisiteMissingError` exists in the code — and it is not silently
skipped either: the batch returns with 3 of 6 diagrams successful, and
3 visualization records are created by the strategy-independent
builders (data_flow, sequence, database_er). -/
theorem create_all_diagrams_counterexample :
    (create_all_diagrams emptyMemory).1.total_diagrams = 6
    ∧ (create_all_diagrams emptyMemory).1.successful_diagrams = 3
    ∧ (getAllR (create_all_diagrams emptyMemory).2 "visualization").length = 3 :=
  ⟨rfl, rfl, rfl⟩

set_option maxRecDepth 100000 in
/-- C7 (amended): with no solution_strategy record, the three
strategy-dependent builders (system_architecture, infrastructure,
project_workflow) each return the error dict
`{"error": "No solution strategy found in memory"}` naming the missing
prerequisite, reported per-diagram in the batch without aborting; the
three strategy-independent builders still run and store visualization
records. -/
theorem create_all_diagrams_missing_strategy_behavior :
    (create_all_diagrams emptyMemory).1.diagrams.map (fun p => (p.1, hasErrorKey p.2))
      = [("system_architecture", true), ("infrastructure", true), ("data_flow", false),
         ("project_workflow", true), ("sequence", false), ("database_er", false)]
    ∧ ((create_all_diagrams emptyMemory).1.diagrams.filter
        (fun p => hasErrorKey p.2)).map (fun p => p.2)
      = [.dict [("error", .str "No solution strategy found in memory")],
         .dict [("error", .str "No solution strategy found in memory")],
         .dict [("error", .str "No solution strategy found in memory")]]
    ∧ (getAllR (create_all_diagrams emptyMemory).2 "visualization").map (fun v => v.id)
      = ["visualization_data_flow_0", "visualization_sequence_1",
         "visualization_database_er_2"] :=
  ⟨rfl, rfl, rfl⟩

end ATK
